import Mathlib

/-!
# Verification of the Authio authentication/authorization decision engine

Shallow embedding of the core of `divortio/divortio-authio`:

* `src/utils/jwt.mjs`      — the Token Engine (`JWT.create`, `JWT.validate`);
* `src/utils/route-matcher.mjs` — the Route Matcher (`matchRoute`, `getCompiledRoute`);
* `src/utils/creds.mjs`    — the Credential Store (`CredentialStore.getUser`);
* `src/auth.mjs` (v3.0.0)  — the orchestrator (`authenticate`, `evictOldestEntries`)
  together with its two module-level caches;
* `src/config.mjs`         — the `JWT_SECRET` validation of `createAuthConfig`.

Modelling conventions:

* JSON values are the inductive `Json` (numbers are modelled as integers;
  JSON has no `undefined`, so an absent object field is `Option.none` at
  lookup time, mirroring JavaScript property access returning `undefined`).
* A JWT is handled by the code only through `token.split('.')`, so a token
  is modelled as the list of its dot-separated segments, `List Seg`.  A
  segment is either the base64url encoding of a JSON value (`Seg.enc`),
  the base64url encoding of `HMAC-SHA256(secret, header ++ "." ++ payload)`
  (`Seg.mac`), or any other string (`Seg.raw`).  The standard symbolic
  abstraction is used: distinct constructor applications denote distinct
  strings (base64url and `JSON.stringify` are injective, and HMAC is
  collision-free and unforgeable), and `crypto.subtle.verify` holds exactly
  when the signature segment is the MAC of the signed data under the key.
* Timestamps (`Date.now()`, `Math.floor(Date.now()/1000)`) are explicit
  integer parameters; `Math.floor(x/1000)` is `Int.fdiv x 1000`.
* Fallible JavaScript (thrown exceptions) is `Option`/`Except`.
-/

namespace Authio

/-- JSON values as manipulated by the code (numbers restricted to integers,
which covers every value the engine itself writes). -/
inductive Json : Type where
  | num (n : Int)
  | str (s : String)
  | arr (xs : List Json)
  | obj (fields : List (String × Json))
deriving Repr

namespace Json

/-- Structural (decidable) equality on JSON values. -/
def beq : Json → Json → Bool
  | num a, num b => a == b
  | str a, str b => a == b
  | arr a, arr b => beqList a b
  | obj a, obj b => beqFields a b
  | _, _ => false
where
  beqList : List Json → List Json → Bool
    | [], [] => true
    | x :: xs, y :: ys => beq x y && beqList xs ys
    | _, _ => false
  beqFields : List (String × Json) → List (String × Json) → Bool
    | [], [] => true
    | (k, x) :: xs, (l, y) :: ys => k == l && beq x y && beqFields xs ys
    | _, _ => false

instance : BEq Json := ⟨beq⟩

/-- JavaScript property access `payload.k`: `none` models `undefined`
(absent field, or access on a non-object). -/
def get : Json → String → Option Json
  | obj fields, k => (fields.find? (fun kv => kv.1 == k)).map (·.2)
  | _, _ => none

end Json

mutual

/-- JavaScript `String(v)` on our JSON values (`Array.prototype.toString`
joins the coerced elements with `","`; objects give `"[object Object]"`). -/
def jsValToString : Json → String
  | .num n => toString n
  | .str s => s
  | .arr a => jsArrToString a
  | .obj _ => "[object Object]"

/-- JavaScript array-to-string coercion: elements joined by `","`. -/
def jsArrToString : List Json → String
  | [] => ""
  | [x] => jsValToString x
  | x :: xs => jsValToString x ++ "," ++ jsArrToString xs

end

/-- JavaScript `ToNumber` on a string, modelled for optional-sign decimal
integer literals: `""` coerces to `0`, other non-integer strings to `NaN`
(`none`).  (Fractional/hex/exponent literals are outside the model.) -/
def jsStrToNumber (s : String) : Option Int :=
  let t := s.trim
  if t = "" then some 0
  else
    let (sign, digits) :=
      if t.startsWith "-" then ((-1 : Int), t.drop 1)
      else if t.startsWith "+" then ((1 : Int), t.drop 1)
      else ((1 : Int), t)
    if digits ≠ "" ∧ digits.all Char.isDigit then
      some (sign * (digits.toNat!))
    else none

/-- JavaScript `ToNumber` of a JSON value in a numeric comparison
(`undefined` is `NaN`, arrays coerce through their string form, objects
coerce to `"[object Object]"` which is `NaN`). -/
def jsToNumber : Option Json → Option Int
  | none => none
  | some (.num n) => some n
  | some (.str s) => jsStrToNumber s
  | some (.arr a) => jsStrToNumber (jsArrToString a)
  | some (.obj _) => none

/-- JavaScript `v < now` for a claim value `v` and number `now`
(`NaN` comparisons are `false`). -/
def jsLtNum (v : Option Json) (now : Int) : Bool :=
  match jsToNumber v with
  | some n => n < now
  | none => false

/-- JavaScript `v > now` for a claim value `v` and number `now`. -/
def jsGtNum (v : Option Json) (now : Int) : Bool :=
  match jsToNumber v with
  | some n => n > now
  | none => false

/-- JavaScript strict equality `v === w` between a claim value
(`undefined` or JSON) and a configured string (`undefined` or string):
true exactly when both are `undefined` or both are the same string. -/
def jsStrictEqStr : Option Json → Option String → Bool
  | none, none => true
  | some (.str s), some t => s == t
  | _, _ => false

/-- JavaScript truthiness of a JSON value (`0` and `""` are falsy;
arrays and objects are always truthy). -/
def jsTruthy : Json → Bool
  | .num n => n ≠ 0
  | .str s => s ≠ ""
  | .arr _ => true
  | .obj _ => true


/-!
## The Token Engine — `src/utils/jwt.mjs` (v2.1.0)

A dot-separated token segment.  `enc j` stands for
`base64UrlEncode(JSON.stringify j)`, `mac secret h p` for
`base64UrlEncode(HMAC-SHA256(key(secret), str(h) ++ "." ++ str(p)))`,
and `raw s` for any other dot-free string (including strings on which
`base64UrlDecode` or `JSON.parse` would throw).
-/
inductive Seg : Type where
  | raw (s : String)
  | enc (j : Json)
  | mac (secret : String) (h p : Seg)
deriving Repr

namespace Seg

/-- Structural equality of segments (equality of the denoted strings,
under the symbolic injectivity abstraction). -/
def beq : Seg → Seg → Bool
  | raw a, raw b => a == b
  | enc a, enc b => Json.beq a b
  | mac k h p, mac k' h' p' => k == k' && beq h h' && beq p p'
  | _, _ => false

instance : BEq Seg := ⟨beq⟩

/-- JavaScript truthiness of the segment string: only the empty string is
falsy (`enc` encodes at least one character; a MAC is 32 bytes). -/
def nonempty : Seg → Bool
  | raw s => s ≠ ""
  | enc _ => true
  | mac _ _ _ => true

end Seg

namespace JWT

/-- The fixed placeholder secret rejected by `getCryptoKey`. -/
def placeholder : String := "default-secret-please-change"

/-- `JWT.getCryptoKey` (jwt.mjs:28-41): throws when the secret is absent,
empty (falsy) or equals the placeholder; otherwise yields the HMAC key,
which is fully determined by the secret and is here identified with it. -/
def getCryptoKey (jwtSecret : Option String) : Except String String :=
  match jwtSecret with
  | none => .error "A strong, non-default JWT_SECRET must be provided for authentication."
  | some s =>
      if s = "" ∨ s = placeholder then
        .error "A strong, non-default JWT_SECRET must be provided for authentication."
      else .ok s

/-- JavaScript object write `m[k] = v` semantics on an ordered field list:
an existing key is updated in place (keeping its position), a new key is
appended.  Values are `Option Json` so that `undefined`-valued properties
(dropped later by `JSON.stringify`) can be represented. -/
def jsObjSet (m : List (String × Option Json)) (k : String) (v : Option Json) :
    List (String × Option Json) :=
  if m.any (fun kv => kv.1 == k) then
    m.map (fun kv => if kv.1 == k then (kv.1, v) else kv)
  else m ++ [(k, v)]

/-- The payload object literal of `JWT.create` (jwt.mjs:56-67): the eight
base claims followed by the spreads of `publicClaims` and `privateClaims`
(later writes override in place), then `JSON.stringify`, which drops
`undefined`-valued properties (in particular `iss`/`aud` when the `issuer`
or `audience` argument is `undefined`). -/
def createPayload (username : String) (routes : List String)
    (issuer audience : Option String) (now sessionTimeout : Int)
    (jti : String) (publicClaims privateClaims : List (String × Json)) : Json :=
  let base : List (String × Option Json) :=
    [("iss", issuer.map .str),
     ("aud", audience.map .str),
     ("sub", some (.str username)),
     ("routes", some (.arr (routes.map .str))),
     ("jti", some (.str jti)),
     ("iat", some (.num now)),
     ("nbf", some (.num now)),
     ("exp", some (.num (now + sessionTimeout)))]
  let merged := (publicClaims ++ privateClaims).foldl
    (fun m kv => jsObjSet m kv.1 (some kv.2)) base
  .obj (merged.filterMap (fun kv => kv.2.map (fun v => (kv.1, v))))

/-- The fixed JOSE header `{alg: "HS256", typ: "JWT"}`. -/
def header : Json := .obj [("alg", .str "HS256"), ("typ", .str "JWT")]

/-- `JWT.create` (jwt.mjs:43-75).  `now` is `Math.floor(Date.now()/1000)`
and `jti` the generated `crypto.randomUUID()`; the result is the
dot-separated segment list of the returned token string.  Throws
(`Except.error`) exactly when `getCryptoKey` does. -/
def create (username : String) (routes : List String)
    (jwtSecret : Option String) (sessionTimeout : Int)
    (issuer audience : Option String) (now : Int) (jti : String)
    (publicClaims privateClaims : List (String × Json)) :
    Except String (List Seg) := do
  let key ← getCryptoKey jwtSecret
  let payload := createPayload username routes issuer audience now
    sessionTimeout jti publicClaims privateClaims
  let encodedHeader := Seg.enc header
  let encodedPayload := Seg.enc payload
  return [encodedHeader, encodedPayload, Seg.mac key encodedHeader encodedPayload]

/-- `crypto.subtle.verify("HMAC", key, signature, header ++ "." ++ payload)`:
true exactly when the signature segment is the MAC of the verified data
under the key (symbolic model of HMAC verification). -/
def verifySig (key : String) (h p s : Seg) : Bool :=
  match s with
  | .mac k h' p' => k == key && Seg.beq h' h && Seg.beq p' p
  | _ => false

/-- `JSON.parse(base64UrlDecode(seg))`: succeeds exactly on encoded JSON
segments; on anything else the decode or parse throws (`none`). -/
def decodeJson : Seg → Option Json
  | .enc j => some j
  | _ => none

/-- The body of `JWT.validate` after token extraction (jwt.mjs:84-106),
applied to the dot-split of the token string.  The JS destructuring
`const [h, p, s] = token.split('.')` reads only the first three segments
(extra segments are ignored) and the guard rejects when any of them is
absent or empty; every exception inside the `try` (bad secret, undecodable
base64, unparsable JSON) yields `null`. -/
def validateToken (toks : List Seg) (jwtSecret : Option String)
    (issuer audience : Option String) (now : Int) : Option Json :=
  match toks.get? 0, toks.get? 1, toks.get? 2 with
  | some encodedHeader, some encodedPayload, some encodedSignature =>
    if ¬ (encodedHeader.nonempty ∧ encodedPayload.nonempty ∧
          encodedSignature.nonempty) then none
    else
      match getCryptoKey jwtSecret with
      | .error _ => none
      | .ok key =>
        if verifySig key encodedHeader encodedPayload encodedSignature then
          match decodeJson encodedPayload with
          | none => none
          | some payload =>
            if jsLtNum (payload.get "exp") now then none
            else if jsGtNum (payload.get "nbf") now then none
            else if ¬ jsStrictEqStr (payload.get "iss") issuer then none
            else if ¬ jsStrictEqStr (payload.get "aud") audience then none
            else
              match payload.get "routes" with
              | some (.arr _) => some payload
              | _ => none
        else none
  | _, _, _ => none

/-- `Object.fromEntries(entries)[k]`: the *last* entry for a key wins. -/
def jsFromEntriesGet {α : Type} (entries : List (String × α)) (k : String) :
    Option α :=
  ((entries.reverse).find? (fun kv => kv.1 == k)).map (·.2)

/-- Token extraction from the Cookie header (jwt.mjs:78-82 and
auth.mjs:230-232).  The cookie header is modelled pre-split as a list of
`(name, dot-split value)` pairs; the dot-split of the empty cookie value
is `[Seg.raw ""]`, which the `if (!token)` falsiness guard filters out. -/
def getToken (cookies : List (String × List Seg)) (authTokenName : String) :
    Option (List Seg) :=
  match jsFromEntriesGet cookies authTokenName with
  | none => none
  | some t => if t == [Seg.raw ""] then none else some t

/-- `JWT.validate` (jwt.mjs:77-107) on a request with the given parsed
Cookie header; `now` is `Math.floor(Date.now()/1000)`. -/
def validate (cookies : List (String × List Seg)) (authTokenName : String)
    (jwtSecret : Option String) (issuer audience : Option String)
    (now : Int) : Option Json :=
  match getToken cookies authTokenName with
  | none => none
  | some token => validateToken token jwtSecret issuer audience now

end JWT

/-!
## C2 — rejection conditions of `JWT.validate`

The spec-side rejection conditions, written independently of
`validateToken`'s control flow.
-/

/-- The token payload's `exp` claim is in the past (JS numeric coercion). -/
def expiredClaim (j : Json) (now : Int) : Prop := jsLtNum (j.get "exp") now = true

/-- The token payload's `nbf` claim is in the future. -/
def notYetValidClaim (j : Json) (now : Int) : Prop := jsGtNum (j.get "nbf") now = true

/-- The payload's `iss` claim differs (strict equality) from the configured issuer. -/
def issuerMismatch (j : Json) (issuer : Option String) : Prop :=
  jsStrictEqStr (j.get "iss") issuer = false

/-- The payload's `aud` claim differs from the configured audience. -/
def audienceMismatch (j : Json) (audience : Option String) : Prop :=
  jsStrictEqStr (j.get "aud") audience = false

/-- The payload's `routes` claim is missing or not an array. -/
def routesNotArray (j : Json) : Prop := ∀ xs, j.get "routes" ≠ some (.arr xs)

/-- The first three dot-separated segments of a token, when all present
(segments beyond the third play no role in validation). -/
def firstThreeSegments (toks : List Seg) : Option (Seg × Seg × Seg) :=
  (toks.get? 0).bind fun h => (toks.get? 1).bind fun p =>
    (toks.get? 2).map fun s => (h, p, s)

/-- The amended rejection condition: one of the first three segments is
absent or empty, the signature does not verify, the payload segment is not
decodable JSON, or a decoded payload violates a claim check. -/
def rejectCond (toks : List Seg) (key : String) (issuer audience : Option String)
    (now : Int) : Prop :=
  match firstThreeSegments toks with
  | none => True
  | some (h, p, s) =>
    h.nonempty = false ∨ p.nonempty = false ∨ s.nonempty = false
    ∨ JWT.verifySig key h p s = false
    ∨ JWT.decodeJson p = none
    ∨ ∃ j, JWT.decodeJson p = some j ∧
        (expiredClaim j now ∨ notYetValidClaim j now ∨ issuerMismatch j issuer
          ∨ audienceMismatch j audience ∨ routesNotArray j)

/-!
## C7 — secret validation (`src/config.mjs` and `JWT.getCryptoKey`)
-/

/-- The `JWT_SECRET` validation of `createAuthConfig` (config.mjs:66):
`requireAndValidate` throws when the environment variable is absent, and
when the validator (a string of length at least 32 that is not the
placeholder) fails. -/
def validateJwtSecretEnv (envSecret : Option String) : Except String String :=
  match envSecret with
  | none =>
      .error "Configuration Error: Required environment variable JWT_SECRET is not set."
  | some v =>
      if v.length ≥ 32 ∧ v ≠ JWT.placeholder then .ok v
      else
        .error "Configuration Error: Invalid value for JWT_SECRET. Must be a unique, random string of at least 32 characters."

/-!
## The Route Matcher — `src/utils/route-matcher.mjs`
-/

/-- Modelled from the spec: the compiled matcher produced by
`getCompiledRoute` through the external `path-to-regexp` package, whose
source is not part of this repository.  Per the spec (§4.2), a route
pattern is literal host+path text with `*` as a greedy wildcard matching
any sequence of characters (the code rewrites every `*` to the parameter
regex `(.*)` before compiling, and tests the compiled regex against the
target).  `globMatch pat s` decides whether the string `s` is the pattern
with each `*` replaced by some (possibly empty) character sequence. -/
def globMatch : List Char → List Char → Bool
  | [], s => s.isEmpty
  | '*' :: ps, s => s.tails.any fun t => globMatch ps t
  | p :: ps, [] => (p :: ps).isEmpty
  | p :: ps, c :: s => p == c && globMatch ps s

/-- `getCompiledRoute(routePattern).test(target)`. -/
def routeMatches (routePattern target : String) : Bool :=
  globMatch routePattern.toList target.toList

/-- The result object of `matchRoute`. -/
structure RouteMatchResult where
  isAuthorized : Bool
  matchedRoute : Option String
deriving Repr, DecidableEq

/-- The `for...of` loop of `matchRoute` (route-matcher.mjs:63-72): first
matching pattern wins; no match gives `{false, null}`. -/
def matchLoop : List String → String → RouteMatchResult
  | [], _ => ⟨false, none⟩
  | p :: rest, s => if routeMatches p s then ⟨true, some p⟩ else matchLoop rest s

/-- `matchRoute` (route-matcher.mjs:55-73): rejects an absent or empty
pattern list, otherwise tests `hostname ++ pathname` against the patterns
in array order. -/
def matchRoute (hostname pathname : String)
    (authorizedRoutes : Option (List String)) : RouteMatchResult :=
  match authorizedRoutes with
  | none => ⟨false, none⟩
  | some routes =>
    if routes.length = 0 then ⟨false, none⟩
    else matchLoop routes (hostname ++ pathname)

/-!
## The Tiered Cache — `src/auth.mjs` eviction primitive and caches

A JavaScript `Map` is modelled as an insertion-ordered association list
with unique keys (the only constructors used by the code are `set`,
`get`, `has` and `delete`, which preserve uniqueness).
-/

/-- `Map.get`. -/
def jsMapGet {K V : Type} [BEq K] (m : List (K × V)) (k : K) : Option V :=
  (m.find? (fun kv => kv.1 == k)).map (·.2)

/-- `Map.has`. -/
def jsMapHas {K V : Type} [BEq K] (m : List (K × V)) (k : K) : Bool :=
  m.any (fun kv => kv.1 == k)

/-- `Map.set`: an existing key is updated in place (keeping its insertion
position), a new key is appended at the end of the insertion order. -/
def jsMapSet {K V : Type} [BEq K] (m : List (K × V)) (k : K) (v : V) :
    List (K × V) :=
  if m.any (fun kv => kv.1 == k) then
    m.map (fun kv => if kv.1 == k then (kv.1, v) else kv)
  else m ++ [(k, v)]

/-- `evictOldestEntries` (auth.mjs:169-174): delete the first
`min(batchSize, size)` keys in insertion order (pure FIFO).  A negative
`batchSize` deletes nothing, as in the JS loop bound. -/
def evictOldestEntries {K V : Type} (cache : List (K × V)) (batchSize : Int) :
    List (K × V) :=
  cache.drop batchSize.toNat

/-- The high-water-mark insertion pattern of the orchestrator
(auth.mjs:285-288 for the verified-token cache and auth.mjs:306-309 for
the authorization cache): evict a batch first when `size ≥ maxSize`,
then `set`. -/
def insertWithEviction {K V : Type} [BEq K] (m : List (K × V)) (k : K)
    (v : V) (maxSize batchSize : Int) : List (K × V) :=
  let m' := if (m.length : Int) ≥ maxSize then evictOldestEntries m batchSize
            else m
  jsMapSet m' k v

/-!
## The Credential Store — `src/utils/creds.mjs` (v3.0.0)
-/

/-- Outcome of `await this.kv.get('user:' + username)` followed by
`JSON.parse`: the key is absent (`null`), present and parsable to a user
object, present but unparsable (`JSON.parse` throws), or the fetch itself
rejects. -/
inductive KVOutcome : Type where
  | notFound
  | found (user : Json)
  | badValue
  | fetchError
deriving Repr

/-- An in-memory user-cache entry `{user, expires}`; `user = none` is a
cached negative (not-found) result. -/
structure CachedUser where
  user : Option Json
  expires : Int
deriving Repr

/-- `CredentialStore.getUser` (creds.mjs:49-87): cache-first with TTL,
negative caching of not-found results, and no caching of fetch/parse
failures.  Returns the result reported to the caller and the updated
in-memory cache. -/
def getUser (cache : List (String × CachedUser)) (kv : String → KVOutcome)
    (cacheTtlMs : Int) (username : String) (now : Int) :
    Option Json × List (String × CachedUser) :=
  if username = "" then (none, cache)
  else
    let fetchResult :=
      match kv ("user:" ++ username) with
      | .notFound => (none, jsMapSet cache username ⟨none, now + cacheTtlMs⟩)
      | .found user =>
          (some user, jsMapSet cache username ⟨some user, now + cacheTtlMs⟩)
      | .badValue => (none, cache)
      | .fetchError => (none, cache)
    match jsMapGet cache username with
    | some entry => if now < entry.expires then (entry.user, cache) else fetchResult
    | none => fetchResult

/-!
## The Orchestrator — `src/auth.mjs` v3.0.0 (`authenticate`, lines 204-331)
-/

/-- The per-request decision result `AuthioContext` (auth.mjs:215-224).
`username` holds whatever JavaScript value was assigned
(`payload.sub`, `user.username`, or the attempted header username);
`none` models `null`/`undefined`. -/
structure AuthResult where
  isAuthed : Bool
  isAuthorized : Bool
  method : Option String
  username : Option Json
  payload : Option Json
  matchedRoute : Option String
  error : Option String
  timestamp : Int
deriving Repr

/-- A verified-token cache entry `{payload, expires}` (auth.mjs:288). -/
structure JwtCacheEntry where
  payload : Json
  expires : Int
deriving Repr

/-- The mutable state visible to one request: the two module-level caches
(auth.mjs:161-162) and the credential store's user cache. -/
structure AuthState where
  verifiedJwtCache : List (List Seg × JwtCacheEntry)
  routeAuthCache : List (String × RouteMatchResult)
  userCache : List (String × CachedUser)
deriving Repr

/-- The fields of the frozen `AuthConfig` (config.mjs:75-95) read by
`authenticate`.  Note the issuer/audience fields are named `jwtIssuer`
and `jwtAudience`. -/
structure AuthConfig where
  jwtSecret : String
  authTokenName : String
  agentHeaderName : String
  jwtIssuer : String
  jwtAudience : String
  userCacheTtlMs : Int
  cacheTtlMs : Int
  maxCacheSize : Int
  cacheEvictionBatchSize : Int
deriving Repr

/-- The programmatic credential header as read by the orchestrator:
absent (or empty, hence falsy), present but not decodable base64
(`atob` throws), or decodable to the given text. -/
inductive HeaderVal : Type where
  | absent
  | badB64
  | decoded (s : String)
deriving Repr, DecidableEq

/-- The parts of the incoming request read by `authenticate`: the parsed
Cookie header, the programmatic credential header, and the request URL's
hostname and pathname. -/
structure Request where
  cookies : List (String × List Seg)
  agentHeader : HeaderVal
  hostname : String
  pathname : String

/-- `decoded.indexOf(':')` and the two substrings around the first colon
(auth.mjs:251-255), on the character list. -/
def splitAtColon : List Char → Option (List Char × List Char)
  | [] => none
  | c :: rest =>
    if c = ':' then some ([], rest)
    else (splitAtColon rest).map (fun p => (c :: p.1, p.2))

/-- Split on the *first* colon only (auth.mjs:251-255): `none` when the
decoded header contains no colon (which makes the block throw). -/
def splitFirstColon (s : String) : Option (String × String) :=
  (splitAtColon s.toList).map (fun p => (String.mk p.1, String.mk p.2))

/-- `x || []` on a routes value (auth.mjs:242,264,282): the empty array
when the value is absent or falsy. -/
def jsOrEmptyArr (v : Option Json) : Json :=
  match v with
  | some j => if jsTruthy j then j else .arr []
  | none => .arr []

/-- An array whose elements are all strings, as pattern list. -/
def allStrings : List Json → Option (List String)
  | [] => some []
  | .str s :: rest => (allStrings rest).map (fun l => s :: l)
  | _ => none

/-- `matchRoute(url, authorizedRoutes)` as invoked by the orchestrator
(auth.mjs:302), where `authorizedRoutes` is a raw JSON value: on an array
of strings it is the Route Matcher; a non-string pattern makes
`getCompiledRoute` throw (`routePattern.replace` is not a function on a
non-string), modelled as `none` and handled by the orchestrator's
`catch`.  A truthy non-array routes value is likewise modelled as a
fault; the claims only exercise arrays of strings. -/
def matchRouteJ (hostname pathname : String) (routes : Json) :
    Option RouteMatchResult :=
  match routes with
  | .arr xs => (allStrings xs).map (fun pats => matchRoute hostname pathname (some pats))
  | _ => none

/-- Error message of auth.mjs:270. -/
def headerErrMsg : String := "Malformed or invalid header credentials."

/-- Error message of auth.mjs:290. -/
def invalidTokenMsg : String := "Invalid or expired token."

/-- Error message of auth.mjs:312. -/
def notAuthorizedMsg (pathname : String) : String :=
  "User not authorized for path: " ++ pathname

/-- Error message of auth.mjs:321. -/
def internalErrorMsg : String := "Internal authentication service error."

/-- The freshly initialised result object (auth.mjs:215-224). -/
def initResult (nowMs : Int) : AuthResult :=
  { isAuthed := false, isAuthorized := false, method := none,
    username := none, payload := none, matchedRoute := none,
    error := none, timestamp := nowMs }

/-- Section 1 — JWT cache-first auth (auth.mjs:235-244): a token whose
unexpired entry is in the verified-token cache authenticates as
`jwt-cache` with no cryptographic work and no store access.  Returns the
updated result and the `authorizedRoutes` local. -/
def authStep1 (st : AuthState) (nowMs : Int) (token : Option (List Seg))
    (r0 : AuthResult) : AuthResult × Json :=
  match token with
  | some t =>
    (match jsMapGet st.verifiedJwtCache t with
     | some ce =>
       if nowMs < ce.expires then
         ({ r0 with
            isAuthed := true, method := some "jwt-cache",
            username := ce.payload.get "sub", payload := some ce.payload },
          jsOrEmptyArr (ce.payload.get "routes"))
       else (r0, .arr [])
     | none => (r0, .arr []))
  | none => (r0, .arr [])

/-- Section 2 — programmatic header auth (auth.mjs:247-272): decode the
header as `username:password` (first colon only), look the user up in the
Credential Store (a KV access), accept on a strict password match;
any failure in the block records the header error (and, after a failed
lookup or password mismatch, the attempted username). -/
def authStep2 (cfg : AuthConfig) (req : Request) (kv : String → KVOutcome)
    (nowMs : Int) (st : AuthState) (r1 : AuthResult) (routes1 : Json) :
    AuthResult × Json × AuthState :=
  if r1.isAuthed then (r1, routes1, st)
  else
    match req.agentHeader with
    | .absent => (r1, routes1, st)
    | .badB64 => ({ r1 with error := some headerErrMsg }, routes1, st)
    | .decoded d =>
      match splitFirstColon d with
      | none => ({ r1 with error := some headerErrMsg }, routes1, st)
      | some (username, password) =>
        let fetched := getUser st.userCache kv cfg.userCacheTtlMs username nowMs
        let st' := { st with userCache := fetched.2 }
        match fetched.1 with
        | some user =>
          if jsTruthy user ∧ jsStrictEqStr (user.get "password") (some password) then
            ({ r1 with
               isAuthed := true, method := some "header",
               username := user.get "username" },
             jsOrEmptyArr (user.get "routes"), st')
          else
            ({ r1 with
               username := some (.str username),
               error := some headerErrMsg }, routes1, st')
        | none =>
          ({ r1 with
             username := some (.str username),
             error := some headerErrMsg }, routes1, st')

/-- Section 3 — full JWT validation (auth.mjs:275-292).  The call
`JWT.validate({request, ...config})` spreads the config object, whose
fields are `jwtIssuer`/`jwtAudience` — the destructured `issuer` and
`audience` parameters of `JWT.validate` are therefore `undefined`
(`none`), whatever the configured values are.  On success the payload is
cached under the token with expiry `now + cacheTtlMs` (evicting a batch
first when at capacity); on failure the invalid-token error is recorded
only when no error was recorded before. -/
def authStep3 (cfg : AuthConfig) (req : Request) (nowMs : Int)
    (token : Option (List Seg)) (r2 : AuthResult) (routes2 : Json)
    (st2 : AuthState) : AuthResult × Json × AuthState :=
  if r2.isAuthed then (r2, routes2, st2)
  else
    match token with
    | none => (r2, routes2, st2)
    | some t =>
      match JWT.validate req.cookies cfg.authTokenName (some cfg.jwtSecret)
        none none (Int.fdiv nowMs 1000) with
      | some payload =>
        ({ r2 with
           isAuthed := true, method := some "jwt",
           username := payload.get "sub", payload := some payload,
           error := none },
         jsOrEmptyArr (payload.get "routes"),
         { st2 with verifiedJwtCache := insertWithEviction st2.verifiedJwtCache t ⟨payload, nowMs + cfg.cacheTtlMs⟩ cfg.maxCacheSize cfg.cacheEvictionBatchSize })
      | none =>
        if r2.error = none then
          ({ r2 with error := some invalidTokenMsg }, routes2, st2)
        else (r2, routes2, st2)

/-- The authorization cache key
``​`${authResult.username}:${url.hostname}${url.pathname}`​``
(auth.mjs:296), with JavaScript string coercion of the username value. -/
def routeCacheKeyOf (username : Option Json) (hostname pathname : String) :
    String :=
  (match username with
   | some j => jsValToString j
   | none => "undefined") ++ ":" ++ hostname ++ pathname

/-- Section 4 — authorization (auth.mjs:295-316): for an authenticated
identity, consult the authorization cache, else run the Route Matcher and
cache the outcome (evicting a batch first when at capacity); an
unauthorized outcome sets a descriptive error without touching the
authentication fields.  An unauthenticated request gets `method` `error`
exactly when some error was recorded.  A Route Matcher fault is handled
by the orchestrator's `catch` (auth.mjs:318-322). -/
def authStep4 (cfg : AuthConfig) (req : Request) (r3 : AuthResult)
    (routes3 : Json) (st3 : AuthState) : AuthResult × AuthState :=
  if r3.isAuthed then
    let key := routeCacheKeyOf r3.username req.hostname req.pathname
    match jsMapGet st3.routeAuthCache key with
    | some ce =>
      let r4 := { r3 with
                  isAuthorized := ce.isAuthorized,
                  matchedRoute := ce.matchedRoute }
      (if ¬ r4.isAuthorized then
        { r4 with error := some (notAuthorizedMsg req.pathname) }
       else r4, st3)
    | none =>
      match matchRouteJ req.hostname req.pathname routes3 with
      | none =>
        ({ r3 with method := some "error", error := some internalErrorMsg }, st3)
      | some mr =>
        let st4 := { st3 with routeAuthCache := insertWithEviction st3.routeAuthCache key mr cfg.maxCacheSize cfg.cacheEvictionBatchSize }
        let r4 := { r3 with
                    isAuthorized := mr.isAuthorized,
                    matchedRoute := mr.matchedRoute }
        (if ¬ r4.isAuthorized then
          { r4 with error := some (notAuthorizedMsg req.pathname) }
         else r4, st4)
  else
    ({ r3 with method := if r3.error.isSome then some "error" else none }, st3)

/-- The body of the `try` block of `authenticate` (auth.mjs:228-316),
followed by the final result/state. -/
def authenticateBody (cfg : AuthConfig) (req : Request)
    (kv : String → KVOutcome) (nowMs : Int) (st : AuthState) :
    AuthResult × AuthState :=
  let token := JWT.getToken req.cookies cfg.authTokenName
  let step1 := authStep1 st nowMs token (initResult nowMs)
  let step2 := authStep2 cfg req kv nowMs st step1.1 step1.2
  let step3 := authStep3 cfg req nowMs token step2.1 step2.2.1 step2.2.2
  authStep4 cfg req step3.1 step3.2.1 step3.2.2

/-- The `catch` block (auth.mjs:318-322) applied to the in-progress
result object: `method` becomes `error` and the error field the generic
internal message — the thrown exception's own message is logged but never
surfaced. -/
def catchResult (r : AuthResult) : AuthResult :=
  { r with method := some "error", error := some internalErrorMsg }

/-- `authenticate` (auth.mjs:204-331).  `cfgResult` is the outcome of
`options.config || await createAuthConfig(env, logger)` (auth.mjs:212),
which runs *before* the `try` block, so a configuration error propagates
to the caller (`Except.error`).  `fault` injects an arbitrary unexpected
exception inside the `try` block, thrown with the given message while the
in-progress result object and state are as given: the `catch` converts it
into the generic internal-error result.  `sendAuthAnalytics` (called
after the `catch`) swallows its own exceptions and does not alter the
result. -/
def authenticate (cfgResult : Except String AuthConfig) (req : Request)
    (kv : String → KVOutcome) (nowMs : Int) (st : AuthState)
    (fault : Option (AuthResult × AuthState × String)) :
    Except String (AuthResult × AuthState) :=
  match cfgResult with
  | .error e => .error e
  | .ok cfg =>
    match fault with
    | some (r, faultSt, _msg) => .ok (catchResult r, faultSt)
    | none => .ok (authenticateBody cfg req kv nowMs st)



/-!
## Proof-support: named intermediate results of the orchestrator
-/

/-- The header attempt fails: undecodable base64, no colon in the decoded
credentials, or a failed user lookup / password mismatch. -/
def HeaderFails (cfg : AuthConfig) (req : Request) (kv : String → KVOutcome)
    (nowMs : Int) (st : AuthState) : Prop :=
  req.agentHeader = .badB64 ∨
  (∃ d, req.agentHeader = .decoded d ∧ splitFirstColon d = none) ∨
  (∃ d u pw, req.agentHeader = .decoded d ∧ splitFirstColon d = some (u, pw) ∧
    ∀ user, (getUser st.userCache kv cfg.userCacheTtlMs u nowMs).1 = some user →
      ¬ (jsTruthy user ∧ jsStrictEqStr (user.get "password") (some pw)))

/-- The result object after a failed header attempt on an otherwise fresh
request. -/
def headerFailedResult (nowMs : Int) (uval : Option Json) : AuthResult :=
  { isAuthed := false, isAuthorized := false, method := none, username := uval,
    payload := none, matchedRoute := none, error := some headerErrMsg,
    timestamp := nowMs }

/-- The result object right after a successful full JWT validation. -/
def jwtAuthedResult (nowMs : Int) (payload : Json) : AuthResult :=
  { isAuthed := true, isAuthorized := false, method := some "jwt",
    username := payload.get "sub", payload := some payload,
    matchedRoute := none, error := none, timestamp := nowMs }

/-- The state after the verified-token cache insertion of section 3. -/
def insertJwtState (cfg : AuthConfig) (t : List Seg) (payload : Json)
    (nowMs : Int) (st2 : AuthState) : AuthState :=
  { st2 with verifiedJwtCache := insertWithEviction st2.verifiedJwtCache t ⟨payload, nowMs + cfg.cacheTtlMs⟩ cfg.maxCacheSize cfg.cacheEvictionBatchSize }

/-- The result object after a JWT-cache hit. -/
def cacheHitResult (nowMs : Int) (ce : JwtCacheEntry) : AuthResult :=
  { isAuthed := true, isAuthorized := false, method := some "jwt-cache",
    username := ce.payload.get "sub", payload := some ce.payload,
    matchedRoute := none, error := none, timestamp := nowMs }

/-- A concrete configuration for witness instantiations. -/
def c5Config : AuthConfig :=
  ⟨"0123456789abcdef0123456789abcdef", "__authio_jwt", "X-Authio-Token",
    "Authio", "AuthioUsers", 60000, 60000, 50000, 100⟩

/-- A concrete payload (created with the orchestrator's undefined
issuer/audience) for witness instantiations. -/
def c5Payload : Json :=
  JWT.createPayload "alice" ["example.com/admin/*"] none none 0 2000000000
    "jti-1" [] []

/-- The concrete, correctly signed token carrying `c5Payload`. -/
def c5Token : List Seg :=
  [Seg.enc JWT.header, Seg.enc c5Payload,
   Seg.mac "0123456789abcdef0123456789abcdef" (Seg.enc JWT.header)
     (Seg.enc c5Payload)]

/-- A concrete request carrying `c5Token` as the session cookie and no
programmatic header. -/
def c5Request : Request :=
  { cookies := [("__authio_jwt", c5Token)], agentHeader := .absent,
    hostname := "example.com", pathname := "/admin/x" }

/-! ## Theorems -/

mutual

/-- `Json.beq` is reflexive. -/
theorem Json.beq_refl : ∀ j : Json, Json.beq j j = true
  | .num _ => by simp [Json.beq]
  | .str _ => by simp [Json.beq]
  | .arr xs => by simp [Json.beq, Json.beq_refl_list xs]
  | .obj fs => by simp [Json.beq, Json.beq_refl_fields fs]

/-- `Json.beq.beqList` is reflexive. -/
theorem Json.beq_refl_list : ∀ xs : List Json, Json.beq.beqList xs xs = true
  | [] => by simp [Json.beq.beqList]
  | x :: xs => by
      simp [Json.beq.beqList, Json.beq_refl x, Json.beq_refl_list xs]

/-- `Json.beq.beqFields` is reflexive. -/
theorem Json.beq_refl_fields :
    ∀ fs : List (String × Json), Json.beq.beqFields fs fs = true
  | [] => by simp [Json.beq.beqFields]
  | (k, x) :: fs => by
      simp [Json.beq.beqFields, Json.beq_refl x, Json.beq_refl_fields fs]

end
/-- `Seg.beq` is reflexive. -/
theorem Seg.beq_self : ∀ s : Seg, Seg.beq s s = true
  | .raw _ => by simp [Seg.beq]
  | .enc j => by simp [Seg.beq, Json.beq_refl j]
  | .mac _ h p => by simp [Seg.beq, Seg.beq_self h, Seg.beq_self p]

/-- `getCryptoKey` succeeds on a non-empty, non-placeholder secret. -/
theorem JWT.getCryptoKey_ok (s : String) (h1 : s ≠ "") (h2 : s ≠ JWT.placeholder) :
    JWT.getCryptoKey (some s) = .ok s := by
  simp [JWT.getCryptoKey, h1, h2]

/-- The shape of a successfully created token: header, payload, MAC. -/
theorem JWT.create_eq (username : String) (routes : List String)
    (secret : String) (st : Int) (issuer audience : Option String)
    (now : Int) (jti : String) (pub priv : List (String × Json))
    (h1 : secret ≠ "") (h2 : secret ≠ JWT.placeholder) :
    JWT.create username routes (some secret) st issuer audience now jti pub priv =
      .ok [Seg.enc JWT.header,
           Seg.enc (JWT.createPayload username routes issuer audience now st jti pub priv),
           Seg.mac secret (Seg.enc JWT.header)
             (Seg.enc (JWT.createPayload username routes issuer audience now st jti pub priv))] := by
  simp [JWT.create, JWT.getCryptoKey_ok secret h1 h2]

/-- The payload created with default (empty) public/private claims and
present issuer/audience. -/
theorem JWT.createPayload_defaults (u : String) (r : List String) (i a : String)
    (now st : Int) (jti : String) :
    JWT.createPayload u r (some i) (some a) now st jti [] [] =
      .obj [("iss", .str i), ("aud", .str a),
        ("sub", .str u), ("routes", .arr (r.map .str)), ("jti", .str jti),
        ("iat", .num now), ("nbf", .num now), ("exp", .num (now + st))] := by
  simp [JWT.createPayload, List.filterMap_cons]

/-- A token freshly created by `JWT.create` passes `JWT.validateToken`
under the same secret, issuer and audience, at any instant inside its
validity window. -/
theorem JWT.validateToken_of_create (u : String) (r : List String)
    (secret i a : String) (st now now' : Int) (jti : String)
    (h1 : secret ≠ "") (h2 : secret ≠ JWT.placeholder)
    (hnbf : now ≤ now') (hexp : now' ≤ now + st) :
    JWT.validateToken
      [Seg.enc JWT.header,
       Seg.enc (JWT.createPayload u r (some i) (some a) now st jti [] []),
       Seg.mac secret (Seg.enc JWT.header)
         (Seg.enc (JWT.createPayload u r (some i) (some a) now st jti [] []))]
      (some secret) (some i) (some a) now' =
      some (JWT.createPayload u r (some i) (some a) now st jti [] []) := by
  have hpay := JWT.createPayload_defaults u r i a now st jti
  simp [JWT.validateToken, Seg.nonempty, JWT.getCryptoKey_ok secret h1 h2,
    JWT.verifySig, Seg.beq_self, JWT.decodeJson, hpay, Json.get,
    jsLtNum, jsGtNum, jsToNumber, jsStrictEqStr, List.find?]
  omega

/-- C1 — Round trip: for every valid username, routes sequence, secret,
issuer and audience, `JWT.validate` on a request whose cookie carries the
token produced by `JWT.create` with that secret, issuer and audience,
evaluated before the session timeout has elapsed (`now ≤ now' ≤ now +
sessionTimeout`), returns a non-null payload whose `sub` equals the
username and whose `routes` equals the routes sequence. -/
theorem C1_jwt_round_trip (username : String) (routes : List String)
    (secret issuer audience : String) (sessionTimeout : Int)
    (now now' : Int) (jti : String) (tok : List Seg)
    (cookies : List (String × List Seg)) (authTokenName : String)
    (hsecret : secret ≠ "" ∧ secret ≠ JWT.placeholder)
    (hcreate : JWT.create username routes (some secret) sessionTimeout
      (some issuer) (some audience) now jti [] [] = .ok tok)
    (hcookie : JWT.getToken cookies authTokenName = some tok)
    (hnbf : now ≤ now') (hexp : now' ≤ now + sessionTimeout) :
    ∃ payload,
      JWT.validate cookies authTokenName (some secret) (some issuer)
        (some audience) now' = some payload ∧
      payload.get "sub" = some (.str username) ∧
      payload.get "routes" = some (.arr (routes.map .str)) := by
  rw [JWT.create_eq username routes secret sessionTimeout (some issuer)
    (some audience) now jti [] [] hsecret.1 hsecret.2] at hcreate
  refine ⟨JWT.createPayload username routes (some issuer) (some audience)
    now sessionTimeout jti [] [], ?_, ?_, ?_⟩
  · rw [JWT.validate, hcookie]
    cases hcreate with
    | refl =>
      exact JWT.validateToken_of_create username routes secret issuer audience
        sessionTimeout now now' jti hsecret.1 hsecret.2 hnbf hexp
  · simp [JWT.createPayload_defaults, Json.get, List.find?]
  · simp [JWT.createPayload_defaults, Json.get, List.find?]

/-- Witness for C1 at a concrete instantiation. -/
theorem C1_jwt_round_trip_witness :
    ∃ payload,
      JWT.validate
        [("__authio_jwt",
          [Seg.enc JWT.header,
           Seg.enc (JWT.createPayload "alice" ["example.com/admin/*"]
             (some "Authio") (some "AuthioUsers") 100 3600 "jti-1" [] []),
           Seg.mac "0123456789abcdef0123456789abcdef" (Seg.enc JWT.header)
             (Seg.enc (JWT.createPayload "alice" ["example.com/admin/*"]
               (some "Authio") (some "AuthioUsers") 100 3600 "jti-1" [] []))])]
        "__authio_jwt" (some "0123456789abcdef0123456789abcdef")
        (some "Authio") (some "AuthioUsers") 200 = some payload ∧
      payload.get "sub" = some (.str "alice") ∧
      payload.get "routes" = some (.arr [.str "example.com/admin/*"]) :=
  C1_jwt_round_trip "alice" ["example.com/admin/*"]
    "0123456789abcdef0123456789abcdef" "Authio" "AuthioUsers" 3600 100 200
    "jti-1" _ _ "__authio_jwt" ⟨by decide, by decide⟩ rfl rfl
    (by decide) (by decide)

/-- C2 (amended) — with a usable configured secret, `JWT.validate` rejects
a presented token (returns null; in this model it is total, so it never
throws) exactly when: any of the *first three* dot-separated segments is
absent or empty (extra segments beyond the third are ignored), the
signature does not verify, the payload is not decodable JSON, `exp` is in
the past, `nbf` is in the future, `iss` or `aud` differs strictly from the
configured values, or the `routes` claim is missing or not an array — in
particular a correctly signed token lacking an array-typed `routes` claim
is rejected regardless of signature validity. -/
theorem C2_validate_rejection_iff (toks : List Seg) (secret : String)
    (issuer audience : Option String) (now : Int)
    (hsecret : secret ≠ "" ∧ secret ≠ JWT.placeholder) :
    JWT.validateToken toks (some secret) issuer audience now = none ↔
      rejectCond toks secret issuer audience now := by
  unfold JWT.validateToken rejectCond firstThreeSegments
  cases h0 : toks.get? 0 with
  | none => simp
  | some h =>
    cases h1 : toks.get? 1 with
    | none => simp
    | some p =>
      cases h2 : toks.get? 2 with
      | none => simp
      | some s =>
        simp only [Option.bind_some, Option.map_some,
          JWT.getCryptoKey_ok secret hsecret.1 hsecret.2]
        by_cases hne : h.nonempty ∧ p.nonempty ∧ s.nonempty
        · simp only [hne, not_true, if_false]
          by_cases hsig : JWT.verifySig secret h p s
          · simp only [hsig, if_true]
            cases hd : JWT.decodeJson p with
            | none => simp_all
            | some j =>
              by_cases hexp : jsLtNum (j.get "exp") now
              · simp_all [expiredClaim]
              · by_cases hnbf : jsGtNum (j.get "nbf") now
                · simp_all [expiredClaim, notYetValidClaim]
                · by_cases hiss : jsStrictEqStr (j.get "iss") issuer
                  · by_cases haud : jsStrictEqStr (j.get "aud") audience
                    · cases hr : j.get "routes" with
                      | none =>
                        simp_all [expiredClaim, notYetValidClaim, issuerMismatch,
                          audienceMismatch, routesNotArray]
                      | some v =>
                        cases v <;>
                          simp_all [expiredClaim, notYetValidClaim, issuerMismatch,
                            audienceMismatch, routesNotArray]
                    · simp_all [expiredClaim, notYetValidClaim, issuerMismatch,
                        audienceMismatch]
                  · simp_all [expiredClaim, notYetValidClaim, issuerMismatch]
          · simp_all
        · simp only [hne, not_false_iff, if_true]
          rcases not_and_or.mp hne with h' | h'
          · simp [h']
          · rcases not_and_or.mp h' with h'' | h'' <;> simp [h'']

/-- Witness for C2 at a concrete instantiation. -/
theorem C2_validate_rejection_iff_witness :
    JWT.validateToken [Seg.raw "x", Seg.raw "y", Seg.raw "z"]
        (some "0123456789abcdef0123456789abcdef") (some "Authio")
        (some "AuthioUsers") 200 = none ↔
      rejectCond [Seg.raw "x", Seg.raw "y", Seg.raw "z"]
        "0123456789abcdef0123456789abcdef" (some "Authio")
        (some "AuthioUsers") 200 :=
  C2_validate_rejection_iff [Seg.raw "x", Seg.raw "y", Seg.raw "z"]
    "0123456789abcdef0123456789abcdef" (some "Authio") (some "AuthioUsers")
    200 ⟨by decide, by decide⟩

/-- C2 counterexample to the claim as stated: a correctly signed token with
an extra fourth segment has *four* dot-separated segments (so the claim's
"malformed (not exactly 3 segments)" condition holds and the claim
predicts rejection), yet `JWT.validate` accepts it — the destructuring of
`token.split('.')` reads only the first three segments. -/
theorem C2_counterexample :
    ([Seg.enc JWT.header,
      Seg.enc (JWT.createPayload "alice" ["example.com/admin/*"]
        (some "Authio") (some "AuthioUsers") 100 3600 "jti-1" [] []),
      Seg.mac "0123456789abcdef0123456789abcdef" (Seg.enc JWT.header)
        (Seg.enc (JWT.createPayload "alice" ["example.com/admin/*"]
          (some "Authio") (some "AuthioUsers") 100 3600 "jti-1" [] [])),
      Seg.raw "junk"] : List Seg).length ≠ 3 ∧
    (JWT.validateToken
      [Seg.enc JWT.header,
       Seg.enc (JWT.createPayload "alice" ["example.com/admin/*"]
         (some "Authio") (some "AuthioUsers") 100 3600 "jti-1" [] []),
       Seg.mac "0123456789abcdef0123456789abcdef" (Seg.enc JWT.header)
         (Seg.enc (JWT.createPayload "alice" ["example.com/admin/*"]
           (some "Authio") (some "AuthioUsers") 100 3600 "jti-1" [] [])),
       Seg.raw "junk"]
      (some "0123456789abcdef0123456789abcdef") (some "Authio")
      (some "AuthioUsers") 200).isSome = true :=
  ⟨by decide, rfl⟩

/-- C10 — a correctly signed token whose payload omits the `exp` claim and
the `nbf` claim is not rejected by the expiry or not-before checks (the
comparisons `payload.exp < now` and `payload.nbf > now` are both false on
an absent claim), so a token that is otherwise valid (signature, `iss`,
`aud`, `routes`) but carries no `exp` is accepted at *every* instant
`now` — it never expires. -/
theorem C10_absent_exp_never_expires (hseg : Seg) (payload : Json)
    (secret : String) (issuer audience : Option String) (now : Int)
    (routesXs : List Json)
    (hsecret : secret ≠ "" ∧ secret ≠ JWT.placeholder)
    (hh : hseg.nonempty = true)
    (hexp : payload.get "exp" = none) (hnbf : payload.get "nbf" = none)
    (hiss : jsStrictEqStr (payload.get "iss") issuer = true)
    (haud : jsStrictEqStr (payload.get "aud") audience = true)
    (hroutes : payload.get "routes" = some (.arr routesXs)) :
    JWT.validateToken
      [hseg, Seg.enc payload, Seg.mac secret hseg (Seg.enc payload)]
      (some secret) issuer audience now = some payload := by
  cases hseg <;>
    simp_all [JWT.validateToken, Seg.nonempty,
      JWT.getCryptoKey_ok secret hsecret.1 hsecret.2, JWT.verifySig,
      Seg.beq_self, JWT.decodeJson, jsLtNum, jsGtNum, jsToNumber]

/-- Witness for C10 at a concrete instantiation (a far-future instant). -/
theorem C10_absent_exp_never_expires_witness :
    JWT.validateToken
      [Seg.enc JWT.header,
       Seg.enc (.obj [("sub", .str "alice"), ("routes", .arr [])]),
       Seg.mac "0123456789abcdef0123456789abcdef" (Seg.enc JWT.header)
         (Seg.enc (.obj [("sub", .str "alice"), ("routes", .arr [])]))]
      (some "0123456789abcdef0123456789abcdef") none none 1000000000000 =
      some (.obj [("sub", .str "alice"), ("routes", .arr [])]) :=
  C10_absent_exp_never_expires (Seg.enc JWT.header)
    (.obj [("sub", .str "alice"), ("routes", .arr [])])
    "0123456789abcdef0123456789abcdef" none none 1000000000000 []
    ⟨by decide, by decide⟩ rfl rfl rfl rfl rfl rfl

/-- C7 (amended) — `JWT.create` itself raises an error exactly when the
secret is absent, empty, or equals the placeholder
`'default-secret-please-change'`; the minimum length floor (32
characters) is *not* checked by `JWT.create` — it is enforced at
configuration time by `createAuthConfig`, which rejects a `JWT_SECRET`
that is absent, shorter than 32 characters, or equal to the placeholder,
preventing engine initialization. -/
theorem C7_secret_validation (s : Option String) (username : String)
    (routes : List String) (st : Int) (issuer audience : Option String)
    (now : Int) (jti : String) (pub priv : List (String × Json)) :
    ((JWT.create username routes s st issuer audience now jti pub priv).isOk
        = false ↔ (s = none ∨ s = some "" ∨ s = some JWT.placeholder)) ∧
    ((validateJwtSecretEnv s).isOk = false ↔
      (s = none ∨ ∃ v, s = some v ∧ (v.length < 32 ∨ v = JWT.placeholder))) := by
  constructor
  · cases s with
    | none => simp [JWT.create, JWT.getCryptoKey, Except.isOk, Except.toBool]
    | some v =>
      by_cases h : v = "" ∨ v = JWT.placeholder
      · rcases h with h | h <;>
          simp [JWT.create, JWT.getCryptoKey, Except.isOk, Except.toBool, h]
      · push_neg at h
        simp [JWT.create, JWT.getCryptoKey, Except.isOk, Except.toBool,
          h.1, h.2]
  · cases s with
    | none => simp [validateJwtSecretEnv, Except.isOk, Except.toBool]
    | some v =>
      by_cases h : v.length ≥ 32 ∧ v ≠ JWT.placeholder
      · simp [validateJwtSecretEnv, h, Except.isOk, Except.toBool]
      · simp only [validateJwtSecretEnv, h, if_false]
        simp [Except.isOk, Except.toBool]
        rcases not_and_or.mp h with h' | h'
        · left; omega
        · right; simpa using h'

/-- C7 counterexample to the claim as stated: the secret `"short"` is
shorter than the 32-character floor, yet `JWT.create` succeeds rather
than raising an error (only `createAuthConfig` rejects it). -/
theorem C7_counterexample :
    ("short".length < 32) ∧
    (JWT.create "alice" [] (some "short") 3600 (some "Authio")
      (some "AuthioUsers") 100 "jti-1" [] []).isOk = true ∧
    (validateJwtSecretEnv (some "short")).isOk = false :=
  ⟨by decide, rfl, rfl⟩

/-- The loop returns the *first* pattern matching the target, in array
order. -/
theorem matchLoop_eq_find (routes : List String) (target : String) :
    matchLoop routes target =
      match routes.find? (fun p => routeMatches p target) with
      | some p => ⟨true, some p⟩
      | none => ⟨false, none⟩ := by
  induction routes with
  | nil => simp [matchLoop]
  | cons p rest ih =>
    by_cases h : routeMatches p target
    · simp [matchLoop, h, List.find?]
    · simp [matchLoop, h, List.find?, ih]

/-- C6 — `matchRoute` tests the target `hostname ++ pathname` (no scheme,
query or port appears in the model) against the patterns in array order
and returns the first matching pattern as `matchedRoute` with
`isAuthorized` true; an empty or absent pattern list yields `isAuthorized`
false and `matchedRoute` null; and with `*` as a greedy wildcard,
`"example.com/admin/*"` matches `"example.com/admin/dashboard"` and does
not match `"example.com/public"`. -/
theorem C6_match_route (hostname pathname : String) (routes : List String) :
    (matchRoute hostname pathname (some routes) =
      match routes.find? (fun p => routeMatches p (hostname ++ pathname)) with
      | some p => ⟨true, some p⟩
      | none => ⟨false, none⟩) ∧
    matchRoute hostname pathname none = ⟨false, none⟩ ∧
    matchRoute hostname pathname (some []) = ⟨false, none⟩ ∧
    matchRoute "example.com" "/admin/dashboard"
      (some ["example.com/admin/*"]) = ⟨true, some "example.com/admin/*"⟩ ∧
    matchRoute "example.com" "/public"
      (some ["example.com/admin/*"]) = ⟨false, none⟩ := by
  refine ⟨?_, rfl, rfl, by decide, by decide⟩
  cases routes with
  | nil => simp [matchRoute, List.find?]
  | cons p rest =>
    simp only [matchRoute, List.length_cons,
      if_neg (Nat.succ_ne_zero rest.length)]
    exact matchLoop_eq_find (p :: rest) (hostname ++ pathname)

/-- `Map.set` grows the map by at most one entry. -/
theorem jsMapSet_length_le {K V : Type} [BEq K] (m : List (K × V)) (k : K)
    (v : V) : (jsMapSet m k v).length ≤ m.length + 1 := by
  unfold jsMapSet
  by_cases h : m.any (fun kv => kv.1 == k) <;> simp [h]

/-- One guarded insertion preserves the size bound. -/
theorem insertWithEviction_length {K V : Type} [BEq K]
    (maxSize batch : Int) (h1 : 1 ≤ maxSize) (h2 : 1 ≤ batch)
    (m : List (K × V)) (k : K) (v : V)
    (hm : (m.length : Int) ≤ maxSize) :
    ((insertWithEviction m k v maxSize batch).length : Int) ≤ maxSize := by
  unfold insertWithEviction evictOldestEntries
  by_cases h : (m.length : Int) ≥ maxSize
  · simp only [h, if_true]
    have hlen := jsMapSet_length_le (m.drop batch.toNat) k v
    have hdrop : (m.drop batch.toNat).length = m.length - batch.toNat :=
      List.length_drop _ _
    have hb : 1 ≤ batch.toNat := by omega
    omega
  · simp only [h, if_false]
    have hlen := jsMapSet_length_le m k v
    omega

/-- C4 — for both bounded caches (they share the same eviction primitive
and insertion pattern): before every insertion, if the size is at least
`maxSize`, the `evictionBatchSize` earliest-inserted entries (pure FIFO)
are removed first; consequently, for `maxSize ≥ 1` and
`evictionBatchSize ≥ 1`, the size never exceeds `maxSize` after any
sequence of insertions starting from the empty cache; and with
`maxSize = 3`, `evictionBatchSize = 1`, inserting 4 distinct tokens
sequentially leaves size at most 3 with the first-inserted key absent. -/
theorem C4_cache_eviction (maxSize batch : Int)
    (h1 : 1 ≤ maxSize) (h2 : 1 ≤ batch) :
    (∀ (K V : Type) [_inst : BEq K] (m : List (K × V)) (k : K) (v : V),
      (m.length : Int) ≥ maxSize →
      insertWithEviction m k v maxSize batch =
        jsMapSet (m.drop batch.toNat) k v) ∧
    (∀ (K V : Type) [_inst : BEq K] (ops : List (K × V)),
      (((ops.foldl (fun m kv => insertWithEviction m kv.1 kv.2 maxSize batch)
        ([] : List (K × V))).length : Int) ≤ maxSize)) ∧
    (([(1, 10), (2, 20), (3, 30), (4, 40)].foldl
        (fun m kv => insertWithEviction m kv.1 kv.2 3 1)
        ([] : List (Nat × Nat))).length ≤ 3 ∧
      jsMapGet ([(1, 10), (2, 20), (3, 30), (4, 40)].foldl
        (fun m kv => insertWithEviction m kv.1 kv.2 3 1)
        ([] : List (Nat × Nat))) 1 = none) := by
  refine ⟨?_, ?_, by decide, by decide⟩
  · intro K V inst m k v h
    simp [insertWithEviction, evictOldestEntries, h]
  · intro K V inst ops
    have main : ∀ (l : List (K × V)) (m : List (K × V)),
        (m.length : Int) ≤ maxSize →
        (((l.foldl (fun m kv => insertWithEviction m kv.1 kv.2 maxSize batch)
          m).length : Int) ≤ maxSize) := by
      intro l
      induction l with
      | nil => intro m hm; simpa using hm
      | cons kv rest ih =>
        intro m hm
        exact ih _ (insertWithEviction_length maxSize batch h1 h2 m kv.1 kv.2 hm)
    exact main ops [] (by simp; omega)

/-- Witness for C4 at `maxSize = 3`, `evictionBatchSize = 1`. -/
theorem C4_cache_eviction_witness :
    (∀ (K V : Type) [_inst : BEq K] (m : List (K × V)) (k : K) (v : V),
      (m.length : Int) ≥ 3 →
      insertWithEviction m k v 3 1 = jsMapSet (m.drop 1) k v) ∧
    (∀ (K V : Type) [_inst : BEq K] (ops : List (K × V)),
      (((ops.foldl (fun m kv => insertWithEviction m kv.1 kv.2 3 1)
        ([] : List (K × V))).length : Int) ≤ 3)) ∧
    (([(1, 10), (2, 20), (3, 30), (4, 40)].foldl
        (fun m kv => insertWithEviction m kv.1 kv.2 3 1)
        ([] : List (Nat × Nat))).length ≤ 3 ∧
      jsMapGet ([(1, 10), (2, 20), (3, 30), (4, 40)].foldl
        (fun m kv => insertWithEviction m kv.1 kv.2 3 1)
        ([] : List (Nat × Nat))) 1 = none) :=
  C4_cache_eviction 3 1 (by decide) (by decide)

/-- C9 — `CredentialStore.getUser` is cache-first with TTL: an unexpired
cached entry (positive or negative) is returned without any backend
access (the result and state are independent of the backend); on a miss
or stale entry it fetches, caching a found user and a not-found `null`
result alike with expiry `now + TTL`; and a backend fetch or parse
failure is reported as `null` (never thrown — the model is total) and is
never cached, leaving the cache unchanged so the next call fetches
again. -/
theorem C9_cred_store (cache : List (String × CachedUser))
    (kv kv' : String → KVOutcome) (ttl : Int) (username : String) (now : Int)
    (hu : username ≠ "") :
    (∀ entry, jsMapGet cache username = some entry → now < entry.expires →
      getUser cache kv ttl username now = (entry.user, cache) ∧
      getUser cache kv ttl username now = getUser cache kv' ttl username now) ∧
    ((jsMapGet cache username = none ∨
      (∃ entry, jsMapGet cache username = some entry ∧ ¬ now < entry.expires)) →
      ((∀ user, kv ("user:" ++ username) = .found user →
        getUser cache kv ttl username now =
          (some user, jsMapSet cache username ⟨some user, now + ttl⟩)) ∧
      (kv ("user:" ++ username) = .notFound →
        getUser cache kv ttl username now =
          (none, jsMapSet cache username ⟨none, now + ttl⟩)) ∧
      (kv ("user:" ++ username) = .badValue →
        getUser cache kv ttl username now = (none, cache)) ∧
      (kv ("user:" ++ username) = .fetchError →
        getUser cache kv ttl username now = (none, cache)))) := by
  constructor
  · intro entry hentry hfresh
    constructor <;> simp [getUser, hu, hentry, hfresh]
  · intro hmiss
    have key : getUser cache kv ttl username now =
        (match kv ("user:" ++ username) with
         | .notFound => (none, jsMapSet cache username ⟨none, now + ttl⟩)
         | .found user =>
             (some user, jsMapSet cache username ⟨some user, now + ttl⟩)
         | .badValue => (none, cache)
         | .fetchError => (none, cache)) := by
      rcases hmiss with hnone | ⟨entry, hentry, hstale⟩
      · simp [getUser, hu, hnone]
      · simp [getUser, hu, hentry, hstale]
    refine ⟨?_, ?_, ?_, ?_⟩
    · intro user hkv; rw [key, hkv]
    · intro hkv; rw [key, hkv]
    · intro hkv; rw [key, hkv]
    · intro hkv; rw [key, hkv]

/-- Witness for C9 on the empty cache (a miss followed by each backend
outcome; the cache-hit conjunct is vacuous there). -/
theorem C9_cred_store_witness :
    (∀ entry,
      jsMapGet ([] : List (String × CachedUser)) "alice" = some entry →
      (100 : Int) < entry.expires →
      getUser [] (fun _ => .notFound) 60000 "alice" 100 = (entry.user, []) ∧
      getUser [] (fun _ => .notFound) 60000 "alice" 100 =
        getUser [] (fun _ => .fetchError) 60000 "alice" 100) ∧
    ((jsMapGet ([] : List (String × CachedUser)) "alice" = none ∨
      (∃ entry, jsMapGet ([] : List (String × CachedUser)) "alice" =
        some entry ∧ ¬ (100 : Int) < entry.expires)) →
      ((∀ user, (fun _ => KVOutcome.notFound) ("user:" ++ "alice") =
          .found user →
        getUser [] (fun _ => .notFound) 60000 "alice" 100 =
          (some user, jsMapSet [] "alice" ⟨some user, 100 + 60000⟩)) ∧
      ((fun _ => KVOutcome.notFound) ("user:" ++ "alice") = .notFound →
        getUser [] (fun _ => .notFound) 60000 "alice" 100 =
          (none, jsMapSet [] "alice" ⟨none, 100 + 60000⟩)) ∧
      ((fun _ => KVOutcome.notFound) ("user:" ++ "alice") = .badValue →
        getUser [] (fun _ => .notFound) 60000 "alice" 100 = (none, [])) ∧
      ((fun _ => KVOutcome.notFound) ("user:" ++ "alice") = .fetchError →
        getUser [] (fun _ => .notFound) 60000 "alice" 100 = (none, [])))) :=
  C9_cred_store [] (fun _ => .notFound) (fun _ => .fetchError) 60000 "alice"
    100 (by decide)



theorem allStrings_map_str : ∀ pats : List String, allStrings (pats.map .str) = some pats
  | [] => rfl
  | p :: rest => by simp [allStrings, allStrings_map_str rest]

theorem authStep1_nohit (st : AuthState) (nowMs : Int) (t : List Seg) (r0 : AuthResult)
    (h : ∀ ce, jsMapGet st.verifiedJwtCache t = some ce → ¬ nowMs < ce.expires) :
    authStep1 st nowMs (some t) r0 = (r0, .arr []) := by
  unfold authStep1
  cases hce : jsMapGet st.verifiedJwtCache t with
  | none => simp [hce]
  | some ce => simp [hce, h ce hce]

theorem authStep2_fail (cfg : AuthConfig) (req : Request) (kv : String → KVOutcome)
    (nowMs : Int) (st : AuthState)
    (hfail : HeaderFails cfg req kv nowMs st) :
    ∃ st' uval, authStep2 cfg req kv nowMs st (initResult nowMs) (.arr []) =
      ({ initResult nowMs with
         username := uval, error := some headerErrMsg }, .arr [], st') := by
  rcases hfail with hb | ⟨d, hd, hsplit⟩ | ⟨d, u, pw, hd, hsplit, hbad⟩
  · exact ⟨st, none, by simp [authStep2, initResult, hb]⟩
  · exact ⟨st, none, by simp [authStep2, initResult, hd, hsplit]⟩
  · refine ⟨{ st with userCache := (getUser st.userCache kv cfg.userCacheTtlMs u nowMs).2 },
      some (.str u), ?_⟩
    simp only [authStep2, initResult, hd, hsplit]
    cases hu : (getUser st.userCache kv cfg.userCacheTtlMs u nowMs).1 with
    | none => simp [hu]
    | some user => simp [hu, hbad user hu]


theorem authStep2_authed (cfg : AuthConfig) (req : Request) (kv : String → KVOutcome)
    (nowMs : Int) (st : AuthState) (r1 : AuthResult) (routes1 : Json)
    (hr : r1.isAuthed = true) :
    authStep2 cfg req kv nowMs st r1 routes1 = (r1, routes1, st) := by
  simp [authStep2, hr]

theorem authStep3_authed (cfg : AuthConfig) (req : Request) (nowMs : Int)
    (token : Option (List Seg)) (r2 : AuthResult) (routes2 : Json) (st2 : AuthState)
    (hr : r2.isAuthed = true) :
    authStep3 cfg req nowMs token r2 routes2 st2 = (r2, routes2, st2) := by
  simp [authStep3, hr]

theorem authStep3_valid (cfg : AuthConfig) (req : Request) (nowMs : Int)
    (t : List Seg) (r2 : AuthResult) (routes2 : Json) (st2 : AuthState) (payload : Json)
    (hr2 : r2.isAuthed = false)
    (hv : JWT.validate req.cookies cfg.authTokenName (some cfg.jwtSecret) none none
      (Int.fdiv nowMs 1000) = some payload) :
    authStep3 cfg req nowMs (some t) r2 routes2 st2 =
      ({ r2 with
         isAuthed := true, method := some "jwt", username := payload.get "sub",
         payload := some payload, error := none },
       jsOrEmptyArr (payload.get "routes"),
       { st2 with verifiedJwtCache := insertWithEviction st2.verifiedJwtCache t ⟨payload, nowMs + cfg.cacheTtlMs⟩ cfg.maxCacheSize cfg.cacheEvictionBatchSize }) := by
  simp [authStep3, hr2, hv]

theorem authStep3_invalid (cfg : AuthConfig) (req : Request) (nowMs : Int)
    (t : List Seg) (r2 : AuthResult) (routes2 : Json) (st2 : AuthState)
    (hr2 : r2.isAuthed = false)
    (hv : JWT.validate req.cookies cfg.authTokenName (some cfg.jwtSecret) none none
      (Int.fdiv nowMs 1000) = none)
    (herr : r2.error ≠ none) :
    authStep3 cfg req nowMs (some t) r2 routes2 st2 = (r2, routes2, st2) := by
  simp [authStep3, hr2, hv, herr]

theorem authStep4_authed_strroutes (cfg : AuthConfig) (req : Request)
    (r3 : AuthResult) (pats : List String) (st3 : AuthState)
    (hr3 : r3.isAuthed = true) :
    (authStep4 cfg req r3 (.arr (pats.map .str)) st3).1.isAuthed = r3.isAuthed ∧
    (authStep4 cfg req r3 (.arr (pats.map .str)) st3).1.method = r3.method ∧
    (authStep4 cfg req r3 (.arr (pats.map .str)) st3).1.username = r3.username ∧
    (authStep4 cfg req r3 (.arr (pats.map .str)) st3).1.payload = r3.payload ∧
    (authStep4 cfg req r3 (.arr (pats.map .str)) st3).1.timestamp = r3.timestamp ∧
    ((authStep4 cfg req r3 (.arr (pats.map .str)) st3).1.isAuthorized = true →
      (authStep4 cfg req r3 (.arr (pats.map .str)) st3).1.error = r3.error) ∧
    ((authStep4 cfg req r3 (.arr (pats.map .str)) st3).1.isAuthorized = false →
      (authStep4 cfg req r3 (.arr (pats.map .str)) st3).1.error =
        some (notAuthorizedMsg req.pathname)) ∧
    (authStep4 cfg req r3 (.arr (pats.map .str)) st3).2.userCache = st3.userCache ∧
    (authStep4 cfg req r3 (.arr (pats.map .str)) st3).2.verifiedJwtCache =
      st3.verifiedJwtCache := by
  unfold authStep4
  simp only [hr3, if_true]
  cases hce : jsMapGet st3.routeAuthCache
      (routeCacheKeyOf r3.username req.hostname req.pathname) with
  | some ce => by_cases hauth : ce.isAuthorized = true <;> simp [hce, hauth]
  | none =>
    have hmr : matchRouteJ req.hostname req.pathname (.arr (pats.map .str)) =
        some (matchRoute req.hostname req.pathname (some pats)) := by
      simp [matchRouteJ, allStrings_map_str]
    by_cases hauth : (matchRoute req.hostname req.pathname (some pats)).isAuthorized = true <;>
      simp [hce, hmr, hauth]

theorem authStep4_unauthed (cfg : AuthConfig) (req : Request)
    (r3 : AuthResult) (routes3 : Json) (st3 : AuthState)
    (hr3 : r3.isAuthed = false) :
    authStep4 cfg req r3 routes3 st3 =
      ({ r3 with method := if r3.error.isSome then some "error" else none }, st3) := by
  simp [authStep4, hr3]


theorem notAuth_ne_header (p : String) : notAuthorizedMsg p ≠ headerErrMsg := by
  intro h
  have h' := congrArg String.data h
  simp only [notAuthorizedMsg, headerErrMsg] at h'
  rw [String.data_append] at h'
  have h2 := congrArg List.head? h'
  simp at h2


/-- C3 (amended) — a request carrying both an invalid programmatic
credential header and a valid cookie token (valid under the orchestrator's
actual `JWT.validate({request, ...config})` call, whose `issuer`/`audience`
are `undefined`), with no token-cache hit, authenticates via the token:
`isAuthed` true, method `jwt`, the header error cleared (the final error
is null whenever the authorization step succeeds, and is never the header
message); but when the token instead fails full verification, the
*header* error takes priority for the user-facing message — the
invalid-or-expired-token message is set only when no header error was
recorded. -/
theorem C3_header_vs_token_priority (cfg : AuthConfig) (req : Request) (kv : String → KVOutcome)
    (nowMs : Int) (st : AuthState) (t : List Seg)
    (htok : JWT.getToken req.cookies cfg.authTokenName = some t)
    (hnocache : ∀ ce, jsMapGet st.verifiedJwtCache t = some ce → ¬ nowMs < ce.expires)
    (hfail : HeaderFails cfg req kv nowMs st) :
    (∀ (payload : Json) (pats : List String),
      JWT.validate req.cookies cfg.authTokenName (some cfg.jwtSecret) none none
        (Int.fdiv nowMs 1000) = some payload →
      payload.get "routes" = some (.arr (pats.map .str)) →
      ∃ r st2, authenticate (.ok cfg) req kv nowMs st none = .ok (r, st2) ∧
        r.isAuthed = true ∧ r.method = some "jwt" ∧
        r.username = payload.get "sub" ∧ r.payload = some payload ∧
        r.error ≠ some headerErrMsg ∧
        (r.isAuthorized = true → r.error = none)) ∧
    (JWT.validate req.cookies cfg.authTokenName (some cfg.jwtSecret) none none
        (Int.fdiv nowMs 1000) = none →
      ∃ r st2, authenticate (.ok cfg) req kv nowMs st none = .ok (r, st2) ∧
        r.isAuthed = false ∧ r.method = some "error" ∧
        r.error = some headerErrMsg) := by
  obtain ⟨st2, uval, hstep2⟩ := authStep2_fail cfg req kv nowMs st hfail
  have hstep2' : authStep2 cfg req kv nowMs st (initResult nowMs) (.arr []) =
      (headerFailedResult nowMs uval, .arr [], st2) := hstep2
  have hstep1 := authStep1_nohit st nowMs t (initResult nowMs) hnocache
  constructor
  · intro payload pats hv hpats
    have hroutes : jsOrEmptyArr (payload.get "routes") = .arr (pats.map .str) := by
      rw [hpats]; simp [jsOrEmptyArr, jsTruthy]
    have hstep3' : authStep3 cfg req nowMs (some t) (headerFailedResult nowMs uval)
        (.arr []) st2 =
        (jwtAuthedResult nowMs payload, jsOrEmptyArr (payload.get "routes"),
         insertJwtState cfg t payload nowMs st2) :=
      authStep3_valid cfg req nowMs t (headerFailedResult nowMs uval)
        (.arr []) st2 payload rfl hv
    have hbody : authenticateBody cfg req kv nowMs st =
        authStep4 cfg req (jwtAuthedResult nowMs payload)
          (.arr (pats.map .str)) (insertJwtState cfg t payload nowMs st2) := by
      simp only [authenticateBody, htok, hstep1, hstep2', hstep3', hroutes]
    obtain ⟨h1, h2, h3, h4, h5, h6, h7, h8, h9⟩ :=
      authStep4_authed_strroutes cfg req (jwtAuthedResult nowMs payload) pats
        (insertJwtState cfg t payload nowMs st2) rfl
    refine ⟨(authStep4 cfg req (jwtAuthedResult nowMs payload)
        (.arr (pats.map .str)) (insertJwtState cfg t payload nowMs st2)).1,
      (authStep4 cfg req (jwtAuthedResult nowMs payload)
        (.arr (pats.map .str)) (insertJwtState cfg t payload nowMs st2)).2,
      ?_, h1, h2, h3, h4, ?_, ?_⟩
    · show Except.ok (authenticateBody cfg req kv nowMs st) = _
      rw [hbody]
    · cases hb : (authStep4 cfg req (jwtAuthedResult nowMs payload)
          (.arr (pats.map .str)) (insertJwtState cfg t payload nowMs st2)).1.isAuthorized
      · rw [h7 hb]
        exact fun hcontra => notAuth_ne_header req.pathname (Option.some.inj hcontra)
      · rw [h6 hb]
        exact fun hcontra => Option.noConfusion hcontra
    · intro hb; rw [h6 hb]; rfl
  · intro hv
    have hstep3' : authStep3 cfg req nowMs (some t) (headerFailedResult nowMs uval)
        (.arr []) st2 = (headerFailedResult nowMs uval, .arr [], st2) :=
      authStep3_invalid cfg req nowMs t (headerFailedResult nowMs uval)
        (.arr []) st2 rfl hv (by simp [headerFailedResult])
    have hstep4' : authStep4 cfg req (headerFailedResult nowMs uval) (.arr []) st2 =
        ({ headerFailedResult nowMs uval with method := some "error" }, st2) :=
      authStep4_unauthed cfg req (headerFailedResult nowMs uval) (.arr []) st2 rfl
    have hbody : authenticateBody cfg req kv nowMs st =
        ({ headerFailedResult nowMs uval with method := some "error" }, st2) := by
      simp only [authenticateBody, htok, hstep1, hstep2', hstep3', hstep4']
    exact ⟨{ headerFailedResult nowMs uval with method := some "error" }, st2,
      by show Except.ok (authenticateBody cfg req kv nowMs st) = _; rw [hbody],
      rfl, rfl, rfl⟩

theorem tokBeq_refl : ∀ t : List Seg, (t == t) = true
  | [] => rfl
  | s :: rest => by
      have h1 : (s == s) = true := Seg.beq_self s
      have h2 : (rest == rest) = true := tokBeq_refl rest
      show (s == s && rest == rest) = true
      rw [h1, h2]
      rfl

theorem jsMapGet_mapset {K V : Type} [BEq K] (m : List (K × V)) (k : K) (v : V)
    (h : m.any (fun kv => kv.1 == k) = true) :
    jsMapGet (m.map (fun kv => if kv.1 == k then (kv.1, v) else kv)) k = some v := by
  induction m with
  | nil => simp at h
  | cons a m ih =>
    by_cases ha : (a.1 == k) = true
    · simp [jsMapGet, List.find?, ha]
    · have h' : m.any (fun kv => kv.1 == k) = true := by
        simpa [List.any_cons, ha] using h
      have := ih h'
      simpa [jsMapGet, List.find?, ha] using this

theorem jsMapGet_set_self {K V : Type} [BEq K] (m : List (K × V)) (k : K) (v : V)
    (hk : (k == k) = true) :
    jsMapGet (jsMapSet m k v) k = some v := by
  unfold jsMapSet
  by_cases h : m.any (fun kv => kv.1 == k) = true
  · simp only [h, if_true]
    exact jsMapGet_mapset m k v h
  · simp only [h, if_false]
    have hnone : m.find? (fun kv => kv.1 == k) = none := by
      rw [List.find?_eq_none]
      intro x hx
      intro hcontra
      exact absurd (List.any_eq_true.mpr ⟨x, hx, hcontra⟩) h
    simp [jsMapGet, List.find?_append, hnone, hk]

theorem authStep1_hit (st : AuthState) (nowMs : Int) (t : List Seg)
    (r0 : AuthResult) (ce : JwtCacheEntry)
    (hce : jsMapGet st.verifiedJwtCache t = some ce)
    (hfresh : nowMs < ce.expires) :
    authStep1 st nowMs (some t) r0 =
      ({ r0 with
         isAuthed := true, method := some "jwt-cache",
         username := ce.payload.get "sub", payload := some ce.payload },
       jsOrEmptyArr (ce.payload.get "routes")) := by
  simp [authStep1, hce, hfresh]

theorem authStep2_method (cfg : AuthConfig) (req : Request)
    (kv : String → KVOutcome) (nowMs : Int) (st : AuthState)
    (r1 : AuthResult) (routes1 : Json) :
    (authStep2 cfg req kv nowMs st r1 routes1).1.method = r1.method ∨
    (authStep2 cfg req kv nowMs st r1 routes1).1.method = some "header" := by
  unfold authStep2
  by_cases h : r1.isAuthed = true
  · simp [h]
  · simp only [h, if_false]
    cases hdr : req.agentHeader with
    | absent => simp
    | badB64 => simp
    | decoded d =>
      cases hs : splitFirstColon d with
      | none => simp [hs]
      | some up =>
        obtain ⟨u, pw⟩ := up
        cases hu : (getUser st.userCache kv cfg.userCacheTtlMs u nowMs).1 with
        | none => simp [hs, hu]
        | some user =>
          by_cases hmatch : jsTruthy user = true ∧
              jsStrictEqStr (user.get "password") (some pw) = true <;>
            simp [hs, hu, hmatch]

theorem authStep3_method (cfg : AuthConfig) (req : Request) (nowMs : Int)
    (token : Option (List Seg)) (r2 : AuthResult) (routes2 : Json)
    (st2 : AuthState) :
    (authStep3 cfg req nowMs token r2 routes2 st2).1.method = r2.method ∨
    (authStep3 cfg req nowMs token r2 routes2 st2).1.method = some "jwt" := by
  unfold authStep3
  by_cases h : r2.isAuthed = true
  · simp [h]
  · simp only [h, if_false]
    cases token with
    | none => simp
    | some t =>
      cases hv : JWT.validate req.cookies cfg.authTokenName (some cfg.jwtSecret)
          none none (Int.fdiv nowMs 1000) with
      | some payload => simp [hv]
      | none =>
        by_cases herr : r2.error = none <;> simp [hv, herr]

theorem authStep4_method (cfg : AuthConfig) (req : Request) (r3 : AuthResult)
    (routes3 : Json) (st3 : AuthState) :
    (authStep4 cfg req r3 routes3 st3).1.method = r3.method ∨
    (authStep4 cfg req r3 routes3 st3).1.method = some "error" ∨
    (authStep4 cfg req r3 routes3 st3).1.method = none := by
  unfold authStep4
  by_cases h : r3.isAuthed = true
  · simp only [h, if_true]
    cases hce : jsMapGet st3.routeAuthCache
        (routeCacheKeyOf r3.username req.hostname req.pathname) with
    | some ce => by_cases hauth : ce.isAuthorized = true <;> simp [hce, hauth]
    | none =>
      cases hmr : matchRouteJ req.hostname req.pathname routes3 with
      | none => simp [hce, hmr]
      | some mr => by_cases hauth : mr.isAuthorized = true <;> simp [hce, hmr, hauth]
  · by_cases herr : r3.error.isSome = true <;> simp [h, herr]

theorem authStep4_keeps_verifiedJwtCache (cfg : AuthConfig) (req : Request)
    (r3 : AuthResult) (routes3 : Json) (st3 : AuthState) :
    (authStep4 cfg req r3 routes3 st3).2.verifiedJwtCache =
      st3.verifiedJwtCache := by
  unfold authStep4
  by_cases h : r3.isAuthed = true
  · simp only [h, if_true]
    cases hce : jsMapGet st3.routeAuthCache
        (routeCacheKeyOf r3.username req.hostname req.pathname) with
    | some ce => by_cases hauth : ce.isAuthorized = true <;> simp [hce, hauth]
    | none =>
      cases hmr : matchRouteJ req.hostname req.pathname routes3 with
      | none => simp [hce, hmr]
      | some mr => by_cases hauth : mr.isAuthorized = true <;> simp [hce, hmr, hauth]
  · simp [h]

theorem authStep4_keeps_userCache (cfg : AuthConfig) (req : Request)
    (r3 : AuthResult) (routes3 : Json) (st3 : AuthState) :
    (authStep4 cfg req r3 routes3 st3).2.userCache = st3.userCache := by
  unfold authStep4
  by_cases h : r3.isAuthed = true
  · simp only [h, if_true]
    cases hce : jsMapGet st3.routeAuthCache
        (routeCacheKeyOf r3.username req.hostname req.pathname) with
    | some ce => by_cases hauth : ce.isAuthorized = true <;> simp [hce, hauth]
    | none =>
      cases hmr : matchRouteJ req.hostname req.pathname routes3 with
      | none => simp [hce, hmr]
      | some mr => by_cases hauth : mr.isAuthorized = true <;> simp [hce, hmr, hauth]
  · simp [h]

theorem authStep2_absent (cfg : AuthConfig) (req : Request)
    (kv : String → KVOutcome) (nowMs : Int) (st : AuthState)
    (r1 : AuthResult) (routes1 : Json) (habs : req.agentHeader = .absent) :
    authStep2 cfg req kv nowMs st r1 routes1 = (r1, routes1, st) := by
  unfold authStep2
  by_cases h : r1.isAuthed = true
  · simp [h]
  · simp [h, habs]

/-- C5 — every entry inserted into the verified-token cache carries
expiry `insertion time + cacheTtlMs`, whatever the payload (in
particular, independent of its `exp` claim); and on a request bearing a
token with a cache entry, the orchestrator accepts the identity with
method `jwt-cache` — username, payload and routes taken from the cached
payload, with no store access (the result is identical for any backend)
and no re-validation — exactly when the current time is strictly before
the cached expiry (the payload's own `exp` is never rechecked: the
payload is arbitrary here). -/
theorem C5_jwt_cache_ttl (cfg : AuthConfig) (req : Request) (kv kv' : String → KVOutcome)
    (nowMs : Int) (st : AuthState) (t : List Seg)
    (htok : JWT.getToken req.cookies cfg.authTokenName = some t) :
    (∀ (payload : Json) (r : AuthResult) (st2 : AuthState),
      (∀ ce, jsMapGet st.verifiedJwtCache t = some ce → ¬ nowMs < ce.expires) →
      req.agentHeader = .absent →
      JWT.validate req.cookies cfg.authTokenName (some cfg.jwtSecret) none none
        (Int.fdiv nowMs 1000) = some payload →
      authenticate (.ok cfg) req kv nowMs st none = .ok (r, st2) →
      jsMapGet st2.verifiedJwtCache t =
        some ⟨payload, nowMs + cfg.cacheTtlMs⟩) ∧
    (∀ ce, jsMapGet st.verifiedJwtCache t = some ce →
      ((nowMs < ce.expires →
        ∀ (pats : List String),
          ce.payload.get "routes" = some (.arr (pats.map .str)) →
          ∃ r st2, authenticate (.ok cfg) req kv nowMs st none = .ok (r, st2) ∧
            r.isAuthed = true ∧ r.method = some "jwt-cache" ∧
            r.username = ce.payload.get "sub" ∧ r.payload = some ce.payload ∧
            authenticate (.ok cfg) req kv nowMs st none =
              authenticate (.ok cfg) req kv' nowMs st none ∧
            st2.userCache = st.userCache ∧
            st2.verifiedJwtCache = st.verifiedJwtCache) ∧
       (¬ nowMs < ce.expires →
        ∀ r st2, authenticate (.ok cfg) req kv nowMs st none = .ok (r, st2) →
          r.method ≠ some "jwt-cache"))) := by
  constructor
  · intro payload r st2 hnocache habs hv heq
    have hstep1 := authStep1_nohit st nowMs t (initResult nowMs) hnocache
    have hstep2' := authStep2_absent cfg req kv nowMs st (initResult nowMs)
      (.arr []) habs
    have hstep3' : authStep3 cfg req nowMs (some t) (initResult nowMs)
        (.arr []) st =
        (jwtAuthedResult nowMs payload, jsOrEmptyArr (payload.get "routes"),
         insertJwtState cfg t payload nowMs st) :=
      authStep3_valid cfg req nowMs t (initResult nowMs) (.arr []) st payload
        rfl hv
    have hbody : authenticateBody cfg req kv nowMs st =
        authStep4 cfg req (jwtAuthedResult nowMs payload)
          (jsOrEmptyArr (payload.get "routes"))
          (insertJwtState cfg t payload nowMs st) := by
      simp only [authenticateBody, htok, hstep1, hstep2', hstep3']
    have heq' : (Except.ok (authenticateBody cfg req kv nowMs st) :
        Except String (AuthResult × AuthState)) = Except.ok (r, st2) := heq
    have hpair := Except.ok.inj heq'
    have hst2 : st2 = (authStep4 cfg req (jwtAuthedResult nowMs payload)
        (jsOrEmptyArr (payload.get "routes"))
        (insertJwtState cfg t payload nowMs st)).2 := by
      rw [hbody] at hpair
      exact (congrArg Prod.snd hpair).symm
    rw [hst2, authStep4_keeps_verifiedJwtCache]
    show jsMapGet (insertWithEviction st.verifiedJwtCache t
      ⟨payload, nowMs + cfg.cacheTtlMs⟩ cfg.maxCacheSize
      cfg.cacheEvictionBatchSize) t = _
    unfold insertWithEviction
    exact jsMapGet_set_self _ t _ (tokBeq_refl t)
  · intro ce hce
    constructor
    · intro hfresh pats hpats
      have hroutes : jsOrEmptyArr (ce.payload.get "routes") =
          .arr (pats.map .str) := by
        rw [hpats]; simp [jsOrEmptyArr, jsTruthy]
      have hstep1' : authStep1 st nowMs (some t) (initResult nowMs) =
          (cacheHitResult nowMs ce, jsOrEmptyArr (ce.payload.get "routes")) :=
        authStep1_hit st nowMs t (initResult nowMs) ce hce hfresh
      have hbody : authenticateBody cfg req kv nowMs st =
          authStep4 cfg req (cacheHitResult nowMs ce)
            (.arr (pats.map .str)) st := by
        simp only [authenticateBody, htok, hstep1', hroutes,
          authStep2_authed cfg req kv nowMs st (cacheHitResult nowMs ce)
            (.arr (pats.map .str)) rfl,
          authStep3_authed cfg req nowMs (some t) (cacheHitResult nowMs ce)
            (.arr (pats.map .str)) st rfl]
      have hbody' : authenticateBody cfg req kv' nowMs st =
          authStep4 cfg req (cacheHitResult nowMs ce)
            (.arr (pats.map .str)) st := by
        simp only [authenticateBody, htok, hstep1', hroutes,
          authStep2_authed cfg req kv' nowMs st (cacheHitResult nowMs ce)
            (.arr (pats.map .str)) rfl,
          authStep3_authed cfg req nowMs (some t) (cacheHitResult nowMs ce)
            (.arr (pats.map .str)) st rfl]
      obtain ⟨h1, h2, h3, h4, h5, h6, h7, h8, h9⟩ :=
        authStep4_authed_strroutes cfg req (cacheHitResult nowMs ce) pats st rfl
      refine ⟨(authStep4 cfg req (cacheHitResult nowMs ce)
          (.arr (pats.map .str)) st).1,
        (authStep4 cfg req (cacheHitResult nowMs ce)
          (.arr (pats.map .str)) st).2, ?_, h1, h2, h3, h4, ?_, ?_, ?_⟩
      · show Except.ok (authenticateBody cfg req kv nowMs st) = _
        rw [hbody]
      · show Except.ok (authenticateBody cfg req kv nowMs st) =
          Except.ok (authenticateBody cfg req kv' nowMs st)
        rw [hbody, hbody']
      · exact authStep4_keeps_userCache cfg req (cacheHitResult nowMs ce)
          (.arr (pats.map .str)) st
      · exact authStep4_keeps_verifiedJwtCache cfg req (cacheHitResult nowMs ce)
          (.arr (pats.map .str)) st
    · intro hstale r st2 heq
      have hstep1' : authStep1 st nowMs (some t) (initResult nowMs) =
          (initResult nowMs, .arr []) := by
        apply authStep1_nohit
        intro ce' hce'
        rw [hce] at hce'
        cases hce' with
        | refl => exact hstale
      have hbody : authenticateBody cfg req kv nowMs st =
          authStep4 cfg req
            (authStep3 cfg req nowMs (some t)
              (authStep2 cfg req kv nowMs st (initResult nowMs) (.arr [])).1
              (authStep2 cfg req kv nowMs st (initResult nowMs) (.arr [])).2.1
              (authStep2 cfg req kv nowMs st (initResult nowMs) (.arr [])).2.2).1
            (authStep3 cfg req nowMs (some t)
              (authStep2 cfg req kv nowMs st (initResult nowMs) (.arr [])).1
              (authStep2 cfg req kv nowMs st (initResult nowMs) (.arr [])).2.1
              (authStep2 cfg req kv nowMs st (initResult nowMs) (.arr [])).2.2).2.1
            (authStep3 cfg req nowMs (some t)
              (authStep2 cfg req kv nowMs st (initResult nowMs) (.arr [])).1
              (authStep2 cfg req kv nowMs st (initResult nowMs) (.arr [])).2.1
              (authStep2 cfg req kv nowMs st (initResult nowMs) (.arr [])).2.2).2.2 := by
        simp only [authenticateBody, htok, hstep1']
      have heq' : (Except.ok (authenticateBody cfg req kv nowMs st) :
          Except String (AuthResult × AuthState)) = Except.ok (r, st2) := heq
      have hpair := Except.ok.inj heq'
      have hr : r = (authenticateBody cfg req kv nowMs st).1 := by
        rw [hpair]
      rw [hr, hbody]
      rcases authStep4_method cfg req _ _ _ with h4 | h4 | h4 <;> rw [h4]
      · rcases authStep3_method cfg req nowMs (some t) _ _ _ with h3 | h3 <;> rw [h3]
        · rcases authStep2_method cfg req kv nowMs st (initResult nowMs) (.arr [])
            with h2 | h2 <;> rw [h2]
          · intro hcontra; exact Option.noConfusion hcontra
          · intro hcontra
            have := Option.some.inj hcontra
            exact absurd this (by decide)
        · intro hcontra
          have := Option.some.inj hcontra
          exact absurd this (by decide)
      · intro hcontra
        have := Option.some.inj hcontra
        exact absurd this (by decide)
      · intro hcontra; exact Option.noConfusion hcontra


/-- Witness for C3 at a concrete instantiation: an invalid header
(`eve:pw`, unknown user) plus a valid cookie token for `alice`. -/
theorem C3_header_vs_token_priority_witness :
    (∀ (payload : Json) (pats : List String),
      JWT.validate
        [("__authio_jwt",
          [Seg.enc JWT.header,
           Seg.enc (JWT.createPayload "alice" ["example.com/admin/*"] none none
             0 2000000000 "jti-1" [] []),
           Seg.mac "0123456789abcdef0123456789abcdef" (Seg.enc JWT.header)
             (Seg.enc (JWT.createPayload "alice" ["example.com/admin/*"] none
               none 0 2000000000 "jti-1" [] []))])]
        "__authio_jwt" (some "0123456789abcdef0123456789abcdef") none none
        (Int.fdiv 1000 1000) = some payload →
      payload.get "routes" = some (.arr (pats.map .str)) →
      ∃ r st2,
        authenticate
          (.ok ⟨"0123456789abcdef0123456789abcdef", "__authio_jwt",
            "X-Authio-Token", "Authio", "AuthioUsers", 60000, 60000, 50000, 100⟩)
          { cookies :=
              [("__authio_jwt",
                [Seg.enc JWT.header,
                 Seg.enc (JWT.createPayload "alice" ["example.com/admin/*"]
                   none none 0 2000000000 "jti-1" [] []),
                 Seg.mac "0123456789abcdef0123456789abcdef" (Seg.enc JWT.header)
                   (Seg.enc (JWT.createPayload "alice" ["example.com/admin/*"]
                     none none 0 2000000000 "jti-1" [] []))])],
            agentHeader := .decoded "eve:pw", hostname := "example.com",
            pathname := "/admin/x" }
          (fun _ => .notFound) 1000 ⟨[], [], []⟩ none = .ok (r, st2) ∧
        r.isAuthed = true ∧ r.method = some "jwt" ∧
        r.username = payload.get "sub" ∧ r.payload = some payload ∧
        r.error ≠ some headerErrMsg ∧
        (r.isAuthorized = true → r.error = none)) ∧
    (JWT.validate
        [("__authio_jwt",
          [Seg.enc JWT.header,
           Seg.enc (JWT.createPayload "alice" ["example.com/admin/*"] none none
             0 2000000000 "jti-1" [] []),
           Seg.mac "0123456789abcdef0123456789abcdef" (Seg.enc JWT.header)
             (Seg.enc (JWT.createPayload "alice" ["example.com/admin/*"] none
               none 0 2000000000 "jti-1" [] []))])]
        "__authio_jwt" (some "0123456789abcdef0123456789abcdef") none none
        (Int.fdiv 1000 1000) = none →
      ∃ r st2,
        authenticate
          (.ok ⟨"0123456789abcdef0123456789abcdef", "__authio_jwt",
            "X-Authio-Token", "Authio", "AuthioUsers", 60000, 60000, 50000, 100⟩)
          { cookies :=
              [("__authio_jwt",
                [Seg.enc JWT.header,
                 Seg.enc (JWT.createPayload "alice" ["example.com/admin/*"]
                   none none 0 2000000000 "jti-1" [] []),
                 Seg.mac "0123456789abcdef0123456789abcdef" (Seg.enc JWT.header)
                   (Seg.enc (JWT.createPayload "alice" ["example.com/admin/*"]
                     none none 0 2000000000 "jti-1" [] []))])],
            agentHeader := .decoded "eve:pw", hostname := "example.com",
            pathname := "/admin/x" }
          (fun _ => .notFound) 1000 ⟨[], [], []⟩ none = .ok (r, st2) ∧
        r.isAuthed = false ∧ r.method = some "error" ∧
        r.error = some headerErrMsg) :=
  C3_header_vs_token_priority
    ⟨"0123456789abcdef0123456789abcdef", "__authio_jwt", "X-Authio-Token",
      "Authio", "AuthioUsers", 60000, 60000, 50000, 100⟩
    { cookies :=
        [("__authio_jwt",
          [Seg.enc JWT.header,
           Seg.enc (JWT.createPayload "alice" ["example.com/admin/*"] none none
             0 2000000000 "jti-1" [] []),
           Seg.mac "0123456789abcdef0123456789abcdef" (Seg.enc JWT.header)
             (Seg.enc (JWT.createPayload "alice" ["example.com/admin/*"] none
               none 0 2000000000 "jti-1" [] []))])],
      agentHeader := .decoded "eve:pw", hostname := "example.com",
      pathname := "/admin/x" }
    (fun _ => .notFound) 1000 ⟨[], [], []⟩
    [Seg.enc JWT.header,
     Seg.enc (JWT.createPayload "alice" ["example.com/admin/*"] none none
       0 2000000000 "jti-1" [] []),
     Seg.mac "0123456789abcdef0123456789abcdef" (Seg.enc JWT.header)
       (Seg.enc (JWT.createPayload "alice" ["example.com/admin/*"] none none
         0 2000000000 "jti-1" [] []))]
    rfl (fun _ h => Option.noConfusion h)
    (Or.inr (Or.inr ⟨"eve:pw", "eve", "pw", rfl, rfl,
      fun _ h => Option.noConfusion h⟩))

/-- C3 counterexample to the claim's final clause ("token failure taking
priority for the user-facing message"): with an invalid header *and* an
invalid (malformed) cookie token present, the final error is the header
message, not the invalid-or-expired-token message. -/
theorem C3_counterexample :
    ((authenticate
        (.ok ⟨"0123456789abcdef0123456789abcdef", "__authio_jwt",
          "X-Authio-Token", "Authio", "AuthioUsers", 60000, 60000, 50000, 100⟩)
        { cookies := [("__authio_jwt", [Seg.raw "bad"])],
          agentHeader := .decoded "eve:pw", hostname := "example.com",
          pathname := "/admin" }
        (fun _ => .notFound) 1000 ⟨[], [], []⟩ none).map
      (fun p => (p.1.isAuthed, p.1.error, p.1.method)) =
        .ok (false, some headerErrMsg, some "error")) ∧
    headerErrMsg ≠ invalidTokenMsg :=
  ⟨rfl, by decide⟩

/-- Witness for C5, exercising all three behaviours non-vacuously at the
valid concrete token `c5Token`: starting from the *empty* cache the
full-validation path inserts an entry stamped `1000 + cacheTtlMs` (the
payload's own `exp` is `2000000000`, unrelated); with a *fresh* cached
entry (expiry 5000 > 1000) the request is accepted as `jwt-cache` with
the cached payload, independently of the KV backend and with the state's
caches untouched; with a *stale* entry (expiry 500 ≤ 1000) the resulting
method is not `jwt-cache`. -/
theorem C5_jwt_cache_ttl_witness :
    (jsMapGet (authenticateBody c5Config c5Request (fun _ => .notFound) 1000
        ⟨[], [], []⟩).2.verifiedJwtCache c5Token =
      some ⟨c5Payload, 1000 + 60000⟩) ∧
    (∃ r st2,
      authenticate (.ok c5Config) c5Request (fun _ => .notFound) 1000
        ⟨[(c5Token, ⟨c5Payload, 5000⟩)], [], []⟩ none = .ok (r, st2) ∧
      r.isAuthed = true ∧ r.method = some "jwt-cache" ∧
      r.username = c5Payload.get "sub" ∧ r.payload = some c5Payload ∧
      authenticate (.ok c5Config) c5Request (fun _ => .notFound) 1000
        ⟨[(c5Token, ⟨c5Payload, 5000⟩)], [], []⟩ none =
      authenticate (.ok c5Config) c5Request (fun _ => .fetchError) 1000
        ⟨[(c5Token, ⟨c5Payload, 5000⟩)], [], []⟩ none ∧
      st2.userCache = [] ∧
      st2.verifiedJwtCache = [(c5Token, ⟨c5Payload, 5000⟩)]) ∧
    (∀ r st2,
      authenticate (.ok c5Config) c5Request (fun _ => .notFound) 1000
        ⟨[(c5Token, ⟨c5Payload, 500⟩)], [], []⟩ none = .ok (r, st2) →
      r.method ≠ some "jwt-cache") := by
  refine ⟨?_, ?_, ?_⟩
  · exact (C5_jwt_cache_ttl c5Config c5Request (fun _ => .notFound)
      (fun _ => .fetchError) 1000 ⟨[], [], []⟩ c5Token rfl).1
      c5Payload
      (authenticateBody c5Config c5Request (fun _ => .notFound) 1000
        ⟨[], [], []⟩).1
      (authenticateBody c5Config c5Request (fun _ => .notFound) 1000
        ⟨[], [], []⟩).2
      (fun _ h => Option.noConfusion h) rfl rfl rfl
  · exact ((C5_jwt_cache_ttl c5Config c5Request (fun _ => .notFound)
      (fun _ => .fetchError) 1000 ⟨[(c5Token, ⟨c5Payload, 5000⟩)], [], []⟩
      c5Token rfl).2 ⟨c5Payload, 5000⟩ rfl).1 (by decide)
      ["example.com/admin/*"] rfl
  · intro r st2 heq
    exact ((C5_jwt_cache_ttl c5Config c5Request (fun _ => .notFound)
      (fun _ => .fetchError) 1000 ⟨[(c5Token, ⟨c5Payload, 500⟩)], [], []⟩
      c5Token rfl).2 ⟨c5Payload, 500⟩ rfl).2 (by decide) r st2 heq

/-- C8 (amended) — with a successfully constructed configuration, the
orchestrator never propagates an exception: any unexpected internal fault
inside the `try` block is caught and converted into a result with method
`error` and the fixed generic message, never exposing the fault's own
message; every path yields a well-formed result.  However, a
configuration error raised by `createAuthConfig` — invoked *before* the
`try` block when no config override is supplied — does propagate to the
caller (by design: §7 classes configuration errors as fatal). -/
theorem C8_internal_fault_handling :
    (∀ (cfg : AuthConfig) (req : Request) (kv : String → KVOutcome)
       (nowMs : Int) (st : AuthState)
       (fault : Option (AuthResult × AuthState × String)),
      (authenticate (.ok cfg) req kv nowMs st fault).isOk = true) ∧
    (∀ (cfg : AuthConfig) (req : Request) (kv : String → KVOutcome)
       (nowMs : Int) (st : AuthState) (r : AuthResult) (fSt : AuthState)
       (msg : String),
      authenticate (.ok cfg) req kv nowMs st (some (r, fSt, msg)) =
        .ok (catchResult r, fSt) ∧
      (catchResult r).method = some "error" ∧
      (catchResult r).error = some internalErrorMsg ∧
      (msg ≠ internalErrorMsg → (catchResult r).error ≠ some msg)) ∧
    (∀ (e : String) (req : Request) (kv : String → KVOutcome) (nowMs : Int)
       (st : AuthState) (fault : Option (AuthResult × AuthState × String)),
      authenticate (.error e) req kv nowMs st fault = .error e) := by
  refine ⟨?_, ?_, ?_⟩
  · intro cfg req kv nowMs st fault
    cases fault with
    | none => rfl
    | some f => obtain ⟨r, fSt, msg⟩ := f; rfl
  · intro cfg req kv nowMs st r fSt msg
    exact ⟨rfl, rfl, rfl, fun hne hcontra => hne (Option.some.inj hcontra).symm⟩
  · intro e req kv nowMs st fault
    cases fault with
    | none => rfl
    | some f => obtain ⟨r, fSt, msg⟩ := f; rfl

/-- C8 counterexample to the claim as stated ("for every request and
environment, authenticate never propagates an exception"): with an
environment whose `JWT_SECRET` is unset and no config override, the
configuration error thrown by `createAuthConfig` (outside the `try`)
propagates out of `authenticate`. -/
theorem C8_counterexample :
    authenticate
      (.error "Configuration Error: Required environment variable JWT_SECRET is not set.")
      { cookies := [], agentHeader := .absent, hostname := "example.com",
        pathname := "/" }
      (fun _ => .notFound) 0 ⟨[], [], []⟩ none =
      .error "Configuration Error: Required environment variable JWT_SECRET is not set." :=
  rfl


/-- Witness for C8 at a concrete instantiation (a fault injected with
message `boom`). -/
theorem C8_internal_fault_handling_witness :
    authenticate
      (.ok ⟨"0123456789abcdef0123456789abcdef", "__authio_jwt",
        "X-Authio-Token", "Authio", "AuthioUsers", 60000, 60000, 50000, 100⟩)
      { cookies := [], agentHeader := .absent, hostname := "example.com",
        pathname := "/" }
      (fun _ => .notFound) 0 ⟨[], [], []⟩
      (some (initResult 0, ⟨[], [], []⟩, "boom")) =
      .ok (catchResult (initResult 0), ⟨[], [], []⟩) ∧
    (catchResult (initResult 0)).method = some "error" ∧
    (catchResult (initResult 0)).error = some internalErrorMsg ∧
    ("boom" ≠ internalErrorMsg →
      (catchResult (initResult 0)).error ≠ some "boom") :=
  C8_internal_fault_handling.2.1
    ⟨"0123456789abcdef0123456789abcdef", "__authio_jwt", "X-Authio-Token",
      "Authio", "AuthioUsers", 60000, 60000, 50000, 100⟩
    { cookies := [], agentHeader := .absent, hostname := "example.com",
      pathname := "/" }
    (fun _ => .notFound) 0 ⟨[], [], []⟩ (initResult 0) ⟨[], [], []⟩ "boom"

end Authio
